import Mathlib

/-!
# Verification of the MoySklad synchronization engine

Shallow embedding of the reconciliation/synchronization engine of the Turan
CRM backend:

* `app/services/integrations/moysklad/mapper.py` (`MoySkladMapper`),
* `app/services/integrations/moysklad/client.py` (`MoySkladClient`),
* `app/services/integrations/moysklad/sync_service_fixed.py`
  (`FixedMoySkladSyncService`),
* `app/services/integrations/moysklad/sync_service.py` (`MoySkladSyncService`).

Loosely-typed external records are modelled by the JSON-like type `JVal`;
Python expressions that can raise are modelled in `Except PyError`.  The
local relational store is modelled per table as a list of rows plus a
surrogate-id counter; the PostgreSQL `INSERT … ON CONFLICT DO UPDATE`
statements used by the services are modelled by explicit insert-or-update
functions on those tables.  `datetime.utcnow()` is modelled by an explicit
clock parameter `now : ℕ`.
-/

namespace Turan

/-- A Python/JSON value as handled by the sync engine: `None`, booleans,
numbers (Python ints and floats, modelled exactly by `ℚ`), strings, lists
and dicts with string keys. -/
inductive JVal where
  | null
  | bool (b : Bool)
  | num (q : ℚ)
  | str (s : String)
  | arr (elems : List JVal)
  | obj (fields : List (String × JVal))
deriving Repr, BEq, Inhabited

/-- Python exceptions raised by the embedded code.  `integrationError`
models the project's `IntegrationError` (raised by `MoySkladClient` for
HTTP failures, carrying the response status). -/
inductive PyError where
  | attributeError
  | typeError
  | keyError
  | indexError
  | valueError
  | integrationError (status : ℕ)
deriving Repr, DecidableEq, Inhabited

/-- A Python dict with string keys, as received from the MoySklad API. -/
abbrev PyDict := List (String × JVal)

/-- First-match association-list lookup, the dict access primitive
(dicts built by the embedding have distinct keys). -/
def pyLookup (d : PyDict) (k : String) : Option JVal :=
  (d.find? (fun kv => kv.1 == k)).map (·.2)

/-- Python `d.get(k, default)` on a dict. -/
def pyGetD (d : PyDict) (k : String) (default : JVal) : JVal :=
  (pyLookup d k).getD default

/-- Python `k in d` on a dict. -/
def pyHasKey (d : PyDict) (k : String) : Bool :=
  (pyLookup d k).isSome

/-- Python truthiness: `None`, `False`, `0`, `""` and empty containers are
falsy, everything else is truthy. -/
def JVal.truthy : JVal → Bool
  | .null => false
  | .bool b => b
  | .num q => !(q == 0)
  | .str s => !(s == "")
  | .arr l => !l.isEmpty
  | .obj l => !l.isEmpty

/-- Python `v.get(k, default)`: a dict lookup on a dict, an
`AttributeError` on every other value (including `None`). -/
def jvalGet (v : JVal) (k : String) (default : JVal) : Except PyError JVal :=
  match v with
  | .obj fields => .ok (pyGetD fields k default)
  | _ => .error .attributeError

/-- Python `v[0]`: first element of a list (`IndexError` when empty),
one-character string for a string, `KeyError` for a dict (the key `0` is
never present in API dicts), `TypeError` otherwise. -/
def pyIndex0 : JVal → Except PyError JVal
  | .arr (x :: _) => .ok x
  | .arr [] => .error .indexError
  | .str s =>
    match s.data with
    | [] => .error .indexError
    | c :: _ => .ok (.str (String.mk [c]))
  | .obj _ => .error .keyError
  | _ => .error .typeError

/-- Python `v / d` for a numeric literal divisor `d`: numbers divide,
booleans coerce to `0`/`1` (`bool` is an `int` subtype), anything else
raises `TypeError`. -/
def pyDivConst : JVal → ℚ → Except PyError ℚ
  | .num q, d => .ok (q / d)
  | .bool b, d => .ok ((if b then 1 else 0) / d)
  | _, _ => .error .typeError

/-- Digit-string value, `none` on a non-digit. -/
def digitsVal (cs : List Char) : Option ℕ :=
  cs.foldl (fun acc c =>
    acc.bind (fun n => if c.isDigit then some (10 * n + (c.toNat - 48)) else none))
    (some 0)

/-- Unsigned decimal literal (`"12"`, `"12.5"`, `".5"`, `"5."`), as
accepted by Python `float()`; exponents and `inf`/`nan` are not used by
the API payloads and are not modelled. -/
def parseUnsigned (cs : List Char) : Option ℚ :=
  let intPart := cs.takeWhile Char.isDigit
  let rest := cs.dropWhile Char.isDigit
  match rest with
  | [] =>
    if intPart.isEmpty then none
    else (digitsVal intPart).map (fun n => (n : ℚ))
  | '.' :: frac =>
    if frac.all Char.isDigit && !(intPart.isEmpty && frac.isEmpty) then
      match digitsVal intPart, digitsVal frac with
      | some i, some f => some ((i : ℚ) + (f : ℚ) / ((10 : ℚ) ^ frac.length))
      | _, _ => none
    else none
  | _ => none

/-- Signed decimal literal, with Python `float()`'s whitespace stripping. -/
def parseDecimal (s : String) : Option ℚ :=
  match s.trim.data with
  | '-' :: rest => (parseUnsigned rest).map (fun q => -q)
  | '+' :: rest => parseUnsigned rest
  | cs => parseUnsigned cs

/-- Python `float(v)`: numbers pass through, booleans coerce, strings are
parsed (`ValueError` on failure), everything else raises `TypeError`. -/
def pyFloat : JVal → Except PyError ℚ
  | .num q => .ok q
  | .bool b => .ok (if b then 1 else 0)
  | .str s =>
    match parseDecimal s with
    | some q => .ok q
    | none => .error .valueError
  | _ => .error .typeError

/-- Python `k in v` for a string key: key membership for a dict,
substring test for a string, element membership for a list, `TypeError`
for non-iterable values. -/
def pyContains (v : JVal) (k : String) : Except PyError Bool :=
  match v with
  | .obj fields => .ok (pyHasKey fields k)
  | .str s => .ok (decide ((s.splitOn k).length ≥ 2))
  | .arr elems => .ok (elems.any (· == .str k))
  | _ => .error .typeError

/-- Python `v[k]` for a string key: dict item access (`KeyError` when
absent), `TypeError` for every other value (string and list indices must
be integers). -/
def pyGetItem (v : JVal) (k : String) : Except PyError JVal :=
  match v with
  | .obj fields =>
    match pyLookup fields k with
    | some x => .ok x
    | none => .error .keyError
  | _ => .error .typeError

/-- Python `v.split("/")[-1]`: last slash-separated component of a string
(`split` never returns an empty list, so the index never fails);
`AttributeError` on a non-string. -/
def pySplitLastSlash : JVal → Except PyError String
  | .str s => .ok ((s.splitOn "/").getLastD "")
  | _ => .error .attributeError

/-- Python iteration `for x in v`: the elements of a list, the
one-character strings of a string, the keys of a dict; `TypeError`
otherwise. -/
def pyIterate : JVal → Except PyError (List JVal)
  | .arr elems => .ok elems
  | .str s => .ok (s.data.map (fun c => .str (String.mk [c])))
  | .obj fields => .ok (fields.map (fun kv => .str kv.1))
  | _ => .error .typeError

/-- Python `len(v)`: `TypeError` on values without a length. -/
def pyLen : JVal → Except PyError ℕ
  | .arr elems => .ok elems.length
  | .str s => .ok s.length
  | .obj fields => .ok fields.length
  | _ => .error .typeError

/-! ## Field Mapper (`mapper.py`, `MoySkladMapper`)

A mapped record is a flat list of column name / value pairs.  Column
values are modelled by `Val`:

* `Val.none` — SQL `NULL` (Python `None`);
* `Val.num`, `Val.str`, `Val.bool` — scalar values produced by the mapper;
* `Val.raw v` — a source value copied through unchanged by `data.get(...)`;
* `Val.json v` — `json.dumps(v)` (the serialization is injective on the
  values handled here, so the mapped value is kept structured);
* `Val.time t` — `datetime.utcnow()` read at clock value `t`.
-/

inductive Val where
  | none
  | num (q : ℚ)
  | str (s : String)
  | bool (b : Bool)
  | raw (v : JVal)
  | json (v : JVal)
  | time (t : ℕ)
deriving Repr, BEq, Inhabited

/-- An optional external identifier as a column value. -/
def optStr : Option String → Val
  | some s => .str s
  | Option.none => .none

/-- An optional rational as a column value. -/
def optNum : Option ℚ → Val
  | some q => .num q
  | Option.none => .none

/-- `MoySkladMapper.extract_id_from_meta`: `None` for a falsy argument or
one without `'href'`; otherwise the last slash component of
`meta['href']`, with `IndexError`/`AttributeError` from the split caught
and turned into `None`.  The `'href' not in meta` membership test itself
raises `TypeError` on non-container values. -/
def extract_id_from_meta (meta : JVal) : Except PyError (Option String) :=
  if !meta.truthy then .ok Option.none
  else do
    let mem ← pyContains meta "href"
    if !mem then pure Option.none
    else do
      let href ← pyGetItem meta "href"
      match pySplitLastSlash href with
      | .ok s => pure (some s)
      | .error _ => pure Option.none

/-- `map_product`'s `salePrices` block:
`if 'salePrices' in data and data['salePrices']: sale_price =
data['salePrices'][0].get('value', 0) / 100`. -/
def salePriceField (data : PyDict) : Except PyError Val :=
  match pyLookup data "salePrices" with
  | some sp =>
    if sp.truthy then do
      let first ← pyIndex0 sp
      let v ← jvalGet first "value" (.num 0)
      let q ← pyDivConst v 100
      pure (Val.num q)
    else pure Val.none
  | Option.none => pure Val.none

/-- `map_product`'s `buyPrice` / `minPrice` blocks:
`if k in data and data[k]: price = data[k].get('value', 0) / 100`. -/
def singlePriceField (data : PyDict) (k : String) : Except PyError Val :=
  match pyLookup data k with
  | some bp =>
    if bp.truthy then do
      let v ← jvalGet bp "value" (.num 0)
      let q ← pyDivConst v 100
      pure (Val.num q)
    else pure Val.none
  | Option.none => pure Val.none

/-- `map_product`'s weight column:
`data.get('weight', 0) / 1000 if data.get('weight') else None`. -/
def weightField (data : PyDict) : Except PyError Val :=
  if (pyGetD data "weight" .null).truthy then
    (pyDivConst (pyGetD data "weight" (.num 0)) 1000).map Val.num
  else pure Val.none

/-- `map_product`'s volume column:
`data.get('volume', 0) / 1000000 if data.get('volume') else None`. -/
def volumeField (data : PyDict) : Except PyError Val :=
  if (pyGetD data "volume" .null).truthy then
    (pyDivConst (pyGetD data "volume" (.num 0)) 1000000).map Val.num
  else pure Val.none

/-- The fallible computations of `MoySkladMapper.map_product`, in program
order: the three price blocks before the returned dict literal, then the
fallible values inside the dict literal (`external_id`, `weight`,
`volume`) in key order. -/
def map_product_core (data : PyDict) :
    Except PyError (Val × Val × Val × Option String × Val × Val) := do
  let sale_price ← salePriceField data
  let buy_price ← singlePriceField data "buyPrice"
  let min_price ← singlePriceField data "minPrice"
  let external_id ← extract_id_from_meta (pyGetD data "meta" .null)
  let weight ← weightField data
  let volume ← volumeField data
  pure (sale_price, buy_price, min_price, external_id, weight, volume)

/-- The dict literal returned by `map_product`, assembled from the
fallible components and the infallible `data.get` lookups. -/
def product_record (data : PyDict) (now : ℕ) :
    Val × Val × Val × Option String × Val × Val → List (String × Val) :=
  fun (sale_price, buy_price, min_price, external_id, weight, volume) =>
      [ ("external_id", optStr external_id),
        ("name", .raw (pyGetD data "name" (.str ""))),
        ("code", .raw (pyGetD data "code" .null)),
        ("article", .raw (pyGetD data "article" .null)),
        ("description", .raw (pyGetD data "description" .null)),
        ("sale_price", sale_price),
        ("buy_price", buy_price),
        ("min_price", min_price),
        ("weight", weight),
        ("volume", volume),
        ("archived", .raw (pyGetD data "archived" (.bool false))),
        ("shared", .raw (pyGetD data "shared" (.bool true))),
        ("external_meta", .json (pyGetD data "meta" (.obj []))),
        ("last_sync_at", .time now),
        ("sync_status", .str "synced") ]

/-- `MoySkladMapper.map_product`: the complete mapped record, with
`last_sync_at = datetime.utcnow()` read at clock `now`. -/
def map_product (data : PyDict) (now : ℕ) :
    Except PyError (List (String × Val)) :=
  (map_product_core data).map (product_record data now)

/-- `map_counterparty`'s contact block:
`if 'contactpersons' in data and data['contactpersons']:
contact = data['contactpersons'][0]; email = contact.get('email');
phone = contact.get('phone')`. -/
def contactField (data : PyDict) : Except PyError (Val × Val) :=
  match pyLookup data "contactpersons" with
  | some cp =>
    if cp.truthy then do
      let contact ← pyIndex0 cp
      let e ← jvalGet contact "email" .null
      let p ← jvalGet contact "phone" .null
      pure (Val.raw e, Val.raw p)
    else pure (Val.none, Val.none)
  | Option.none => pure (Val.none, Val.none)

/-- `map_counterparty`'s address blocks:
`if k in data: addr = data[k].get('addInfo')` — note that a key that is
present with a non-dict value (for instance `None`) reaches `.get` and
raises `AttributeError`. -/
def addressField (data : PyDict) (k : String) : Except PyError Val :=
  match pyLookup data k with
  | some a => (jvalGet a "addInfo" .null).map Val.raw
  | Option.none => pure Val.none

/-- The fallible computations of `MoySkladMapper.map_counterparty`, in
program order. -/
def map_counterparty_core (data : PyDict) :
    Except PyError (Val × Val × Val × Val × Option String) := do
  let ep ← contactField data
  let legal_address ← addressField data "legalAddress"
  let actual_address ← addressField data "actualAddress"
  let external_id ← extract_id_from_meta (pyGetD data "meta" .null)
  pure (ep.1, ep.2, legal_address, actual_address, external_id)

/-- The dict literal returned by `map_counterparty`. -/
def counterparty_record (data : PyDict) (now : ℕ) :
    Val × Val × Val × Val × Option String → List (String × Val) :=
  fun (email, phone, legal_address, actual_address, external_id) =>
      [ ("external_id", optStr external_id),
        ("name", .raw (pyGetD data "name" (.str ""))),
        ("code", .raw (pyGetD data "code" .null)),
        ("description", .raw (pyGetD data "description" .null)),
        ("email", email),
        ("phone", phone),
        ("legal_title", .raw (pyGetD data "legalTitle" .null)),
        ("legal_address", legal_address),
        ("actual_address", actual_address),
        ("inn", .raw (pyGetD data "inn" .null)),
        ("kpp", .raw (pyGetD data "kpp" .null)),
        ("ogrn", .raw (pyGetD data "ogrn" .null)),
        ("okpo", .raw (pyGetD data "okpo" .null)),
        ("is_supplier", .raw (pyGetD data "supplier" (.bool false))),
        ("is_customer", .bool (!(pyGetD data "supplier" (.bool false)).truthy)),
        ("discount_percentage", .raw (pyGetD data "discountCardNumber" (.num 0))),
        ("archived", .raw (pyGetD data "archived" (.bool false))),
        ("shared", .raw (pyGetD data "shared" (.bool true))),
        ("external_meta", .json (pyGetD data "meta" (.obj []))),
        ("last_sync_at", .time now),
        ("sync_status", .str "synced") ]

/-- `MoySkladMapper.map_counterparty`. -/
def map_counterparty (data : PyDict) (now : ℕ) :
    Except PyError (List (String × Val)) :=
  (map_counterparty_core data).map (counterparty_record data now)

/-- A quantity column of `map_stock`: `data.get(k, 0) / 1000` — a key
that is present with a null or non-numeric value raises `TypeError` at
the division. -/
def stockQtyField (data : PyDict) (k : String) : Except PyError ℚ :=
  pyDivConst (pyGetD data k (.num 0)) 1000

/-- The fallible computations of `MoySkladMapper.map_stock`, in the order
of the returned dict literal. -/
def map_stock_core (data : PyDict) :
    Except PyError (Option String × ℚ × ℚ × ℚ × ℚ) := do
  let external_id ← extract_id_from_meta (pyGetD data "meta" .null)
  let stock ← stockQtyField data "stock"
  let in_transit ← stockQtyField data "inTransit"
  let reserve ← stockQtyField data "reserve"
  let available ← stockQtyField data "quantity"
  pure (external_id, stock, in_transit, reserve, available)

/-- The dict literal returned by `map_stock`. -/
def stock_record (data : PyDict) (now : ℕ) :
    Option String × ℚ × ℚ × ℚ × ℚ → List (String × Val) :=
  fun (external_id, stock, in_transit, reserve, available) =>
      [ ("external_id", optStr external_id),
        ("stock", .num stock),
        ("in_transit", .num in_transit),
        ("reserve", .num reserve),
        ("available", .num available),
        ("external_meta", .json (pyGetD data "meta" (.obj []))),
        ("last_sync_at", .time now),
        ("sync_status", .str "synced") ]

/-- `MoySkladMapper.map_stock`. -/
def map_stock (data : PyDict) (now : ℕ) :
    Except PyError (List (String × Val)) :=
  (map_stock_core data).map (stock_record data now)

/-- Column lookup in a mapped record. -/
def recLookup (m : List (String × Val)) (k : String) : Option Val :=
  (m.find? (fun kv => kv.1 == k)).map (fun kv => kv.2)

/-! ## Fixed sync service (`sync_service_fixed.py`, `FixedMoySkladSyncService`)

### Extraction helpers -/

/-- `FixedMoySkladSyncService.extract_id_from_meta_or_href`. -/
def extract_id_from_meta_or_href (obj : JVal) : Except PyError (Option String) :=
  if !obj.truthy then .ok Option.none
  else match obj with
  | .str s =>
    -- `obj.split("/")[-1] if obj else None`; `obj` is truthy here
    .ok (some ((s.splitOn "/").getLastD ""))
  | .obj fields => do
    let meta := pyGetD fields "meta" (.obj [])
    let href ← jvalGet meta "href" (.str "")
    if href.truthy then
      (pySplitLastSlash href).map some
    else pure Option.none
  | _ => .ok Option.none

/-- `FixedMoySkladSyncService.extract_price_value`: kopecks to rubles.
A falsy argument returns the default; numbers (and booleans, which are
`int`s) divide by 100; for a dict the `value` entry is converted with
`float(value) / 100` when truthy, else the default; other values return
the default. -/
def extract_price_value (price_obj : JVal) (default : ℚ := 0) :
    Except PyError ℚ :=
  if !price_obj.truthy then .ok default
  else match price_obj with
  | .num q => .ok (q / 100)
  | .bool b => .ok ((if b then 1 else 0) / 100)
  | .obj fields =>
    let value := pyGetD fields "value" (.num default)
    if value.truthy then (pyFloat value).map (· / 100)
    else .ok default
  | _ => .ok default

/-- `FixedMoySkladSyncService.extract_sale_prices`: first element of the
`salePrices` array through `extract_price_value`, `0` for a non-list or
empty list. -/
def extract_sale_prices (sale_prices : JVal) : Except PyError ℚ :=
  match sale_prices with
  | .arr (x :: _) => extract_price_value x 0
  | _ => .ok 0

/-! ### Entity batch machinery

Each `sync_<entity>` method of the fixed service iterates the fetched
raw records, processing each inside a per-record `try`/`except` that
counts `created`/`updated`/`errors`; records with a falsy `id` are
skipped by `continue`.  The per-record upsert is a PostgreSQL
`INSERT … ON CONFLICT ("external_id") DO UPDATE`, whose reported
`rowcount` is `1` both when the row was inserted and when the conflict
arm updated it (the command tag is `INSERT 0 1` in either case). -/

/-- Result of processing one raw record. -/
inductive Outcome where
  | skipped
  | created
  | updated
  | errored
deriving Repr, DecidableEq, Inhabited

/-- Per-entity `{created, updated, errors}` tallies. -/
structure EntityCounts where
  created : ℕ
  updated : ℕ
  errors : ℕ
deriving Repr, DecidableEq, Inhabited

/-- Add one record's outcome to the tallies. -/
def EntityCounts.add (c : EntityCounts) : Outcome → EntityCounts
  | .skipped => c
  | .created => { c with created := c.created + 1 }
  | .updated => { c with updated := c.updated + 1 }
  | .errored => { c with errors := c.errors + 1 }

/-- The shared `for record in data` loop of every `sync_<entity>` method:
fold the per-record step over the fetched records, tallying outcomes. -/
def runEntity {τ : Type} (step : τ → JVal → τ × Outcome)
    (t : τ) (rows : List JVal) : τ × EntityCounts :=
  rows.foldl
    (fun acc d =>
      let r := step acc.1 d
      (r.1, acc.2.add r.2))
    (t, ⟨0, 0, 0⟩)

/-! ### Products (`sync_products`, table `product`) -/

/-- The values bound in the `insert(Product).values(...)` call, i.e. the
data extracted from one raw product record. -/
structure ProductValues where
  external_id : String
  name : JVal
  code : JVal
  article : JVal
  description : JVal
  sale_price : ℚ
  buy_price : ℚ
  min_price : ℚ
  weight : Option ℚ
  volume : Option ℚ
  archived : JVal
  shared : JVal
  folder_external_id : Option String
  unit_external_id : Option String
  supplier_external_id : Option String
deriving Repr, Inhabited

/-- A row of the `product` table.  `folder_id` / `unit_id` are the
resolved reference columns, written only by
`update_foreign_key_relationships`; `id` is the local surrogate key. -/
structure ProductRow where
  id : ℕ
  external_id : String
  name : JVal
  code : JVal
  article : JVal
  description : JVal
  sale_price : ℚ
  buy_price : ℚ
  min_price : ℚ
  weight : Option ℚ
  volume : Option ℚ
  archived : JVal
  shared : JVal
  folder_external_id : Option String
  unit_external_id : Option String
  supplier_external_id : Option String
  folder_id : Option ℕ
  unit_id : Option ℕ
  last_sync_at : ℕ
  updated_at : ℕ
deriving Repr, Inhabited

/-- The `product` table: rows plus the surrogate-id sequence. -/
structure ProductTable where
  rows : List ProductRow
  nextId : ℕ
deriving Repr, Inhabited

/-- The freshly inserted row: the `values(...)` columns, resolved
reference columns null, surrogate id from the sequence. -/
def insertProductRow (id : ℕ) (v : ProductValues) (now : ℕ) : ProductRow :=
  { id := id
    external_id := v.external_id
    name := v.name, code := v.code, article := v.article
    description := v.description
    sale_price := v.sale_price, buy_price := v.buy_price
    min_price := v.min_price
    weight := v.weight, volume := v.volume
    archived := v.archived, shared := v.shared
    folder_external_id := v.folder_external_id
    unit_external_id := v.unit_external_id
    supplier_external_id := v.supplier_external_id
    folder_id := Option.none, unit_id := Option.none
    last_sync_at := now, updated_at := now }

/-- The `ON CONFLICT DO UPDATE` arm's `set_` columns applied to an
existing row: every mapped column except `external_id`; the surrogate id
and the resolved reference columns are untouched. -/
def applyProductUpdate (r : ProductRow) (v : ProductValues) (now : ℕ) :
    ProductRow :=
  { r with
    name := v.name, code := v.code, article := v.article
    description := v.description
    sale_price := v.sale_price, buy_price := v.buy_price
    min_price := v.min_price
    weight := v.weight, volume := v.volume
    archived := v.archived, shared := v.shared
    folder_external_id := v.folder_external_id
    unit_external_id := v.unit_external_id
    supplier_external_id := v.supplier_external_id
    last_sync_at := now, updated_at := now }

/-- `INSERT INTO product … ON CONFLICT ("external_id") DO UPDATE …`:
update in place when a row with the external id exists, insert a fresh
row otherwise.  Returns the statement's `rowcount`, which PostgreSQL
reports as `1` on both arms. -/
def upsert_product (t : ProductTable) (v : ProductValues) (now : ℕ) :
    ProductTable × ℕ :=
  if t.rows.any (fun r => r.external_id == v.external_id) then
    ({ t with
       rows := t.rows.map (fun r =>
         if r.external_id == v.external_id then applyProductUpdate r v now
         else r) }, 1)
  else
    ({ rows := t.rows ++ [insertProductRow t.nextId v now]
       nextId := t.nextId + 1 }, 1)

/-- The extraction part of `sync_products`' loop body for one raw record:
`None` models `continue` (falsy `id`); a thrown `PyError` is caught by
the per-record `except`.  A non-string `id` fails at the database driver
when bound to the `external_id` varchar column; that failure is modelled
as `typeError` here and lands in the same `except`. -/
def extract_product_values (product_data : JVal) :
    Except PyError (Option ProductValues) := do
  let pid ← jvalGet product_data "id" .null
  if !pid.truthy then pure Option.none
  else do
    let pidS ← match pid with
      | .str s => Except.ok s
      | _ => Except.error PyError.typeError
    let fields := match product_data with
      | .obj f => f
      | _ => []
    let sale_price ← match pyLookup fields "salePrices" with
      | some sp =>
        if sp.truthy then extract_sale_prices sp else pure (0 : ℚ)
      | Option.none => pure (0 : ℚ)
    let buy_price ← match pyLookup fields "buyPrice" with
      | some bp => extract_price_value bp
      | Option.none => pure (0 : ℚ)
    let min_price ← match pyLookup fields "minPrice" with
      | some mp => extract_price_value mp
      | Option.none => pure (0 : ℚ)
    let folder_external_id ← match pyLookup fields "productFolder" with
      | some v => extract_id_from_meta_or_href v
      | Option.none => pure Option.none
    let unit_external_id ← match pyLookup fields "uom" with
      | some v => extract_id_from_meta_or_href v
      | Option.none => pure Option.none
    let supplier_external_id ← match pyLookup fields "supplier" with
      | some v => extract_id_from_meta_or_href v
      | Option.none => pure Option.none
    let weight ← if (pyGetD fields "weight" .null).truthy then
        (pyDivConst (pyGetD fields "weight" (.num 0)) 1000).map some
      else pure (Option.none : Option ℚ)
    let volume ← if (pyGetD fields "volume" .null).truthy then
        (pyDivConst (pyGetD fields "volume" (.num 0)) 1000000).map some
      else pure (Option.none : Option ℚ)
    pure (some
      { external_id := pidS
        name := pyGetD fields "name" (.str "")
        code := pyGetD fields "code" .null
        article := pyGetD fields "article" .null
        description := pyGetD fields "description" .null
        sale_price := sale_price, buy_price := buy_price
        min_price := min_price
        weight := weight, volume := volume
        archived := pyGetD fields "archived" (.bool false)
        shared := pyGetD fields "shared" (.bool true)
        folder_external_id := folder_external_id
        unit_external_id := unit_external_id
        supplier_external_id := supplier_external_id })

/-- One iteration of `sync_products`' loop: skip on falsy id, absorb a
raised error into the error tally, otherwise upsert and classify by the
statement's `rowcount` (`created` when positive, `updated` otherwise). -/
def sync_product_record (now : ℕ) (t : ProductTable) (product_data : JVal) :
    ProductTable × Outcome :=
  match extract_product_values product_data with
  | .error _ => (t, .errored)
  | .ok Option.none => (t, .skipped)
  | .ok (some v) =>
    let r := upsert_product t v now
    if r.2 > 0 then (r.1, .created) else (r.1, .updated)

/-- `FixedMoySkladSyncService.sync_products`: a failed fetch escapes the
method (`except … raise` after rollback, with nothing yet written);
otherwise the per-record loop runs to completion. -/
def sync_products (t : ProductTable) (fetched : Except PyError (List JVal))
    (now : ℕ) : Except PyError (ProductTable × EntityCounts) :=
  match fetched with
  | .error e => .error e
  | .ok rows => .ok (runEntity (sync_product_record now) t rows)

/-! ### Product folders (`sync_product_folders`, table `product_folder`) -/

structure FolderValues where
  external_id : String
  name : JVal
  code : JVal
  description : JVal
  path_name : JVal
  parent_external_id : Option String
  archived : JVal
deriving Repr, Inhabited

structure FolderRow where
  id : ℕ
  external_id : String
  name : JVal
  code : JVal
  description : JVal
  path_name : JVal
  parent_external_id : Option String
  archived : JVal
  last_sync_at : ℕ
  updated_at : ℕ
deriving Repr, Inhabited

structure FolderTable where
  rows : List FolderRow
  nextId : ℕ
deriving Repr, Inhabited

def insertFolderRow (id : ℕ) (v : FolderValues) (now : ℕ) : FolderRow :=
  { id := id, external_id := v.external_id
    name := v.name, code := v.code, description := v.description
    path_name := v.path_name, parent_external_id := v.parent_external_id
    archived := v.archived, last_sync_at := now, updated_at := now }

def applyFolderUpdate (r : FolderRow) (v : FolderValues) (now : ℕ) :
    FolderRow :=
  { r with
    name := v.name, code := v.code, description := v.description
    path_name := v.path_name, parent_external_id := v.parent_external_id
    archived := v.archived, last_sync_at := now, updated_at := now }

def upsert_folder (t : FolderTable) (v : FolderValues) (now : ℕ) :
    FolderTable × ℕ :=
  if t.rows.any (fun r => r.external_id == v.external_id) then
    ({ t with
       rows := t.rows.map (fun r =>
         if r.external_id == v.external_id then applyFolderUpdate r v now
         else r) }, 1)
  else
    ({ rows := t.rows ++ [insertFolderRow t.nextId v now]
       nextId := t.nextId + 1 }, 1)

/-- Extraction part of `sync_product_folders`' loop body. -/
def extract_folder_values (folder_data : JVal) :
    Except PyError (Option FolderValues) := do
  let fid ← jvalGet folder_data "id" .null
  if !fid.truthy then pure Option.none
  else do
    let fidS ← match fid with
      | .str s => Except.ok s
      | _ => Except.error PyError.typeError
    let fields := match folder_data with
      | .obj f => f
      | _ => []
    let parent_external_id ← match pyLookup fields "productFolder" with
      | some v => extract_id_from_meta_or_href v
      | Option.none => pure Option.none
    pure (some
      { external_id := fidS
        name := pyGetD fields "name" (.str "")
        code := pyGetD fields "code" .null
        description := pyGetD fields "description" .null
        path_name := pyGetD fields "pathName" (.str "")
        parent_external_id := parent_external_id
        archived := pyGetD fields "archived" (.bool false) })

def sync_folder_record (now : ℕ) (t : FolderTable) (folder_data : JVal) :
    FolderTable × Outcome :=
  match extract_folder_values folder_data with
  | .error _ => (t, .errored)
  | .ok Option.none => (t, .skipped)
  | .ok (some v) =>
    let r := upsert_folder t v now
    if r.2 > 0 then (r.1, .created) else (r.1, .updated)

/-- `FixedMoySkladSyncService.sync_product_folders`. -/
def sync_product_folders (t : FolderTable)
    (fetched : Except PyError (List JVal)) (now : ℕ) :
    Except PyError (FolderTable × EntityCounts) :=
  match fetched with
  | .error e => .error e
  | .ok rows => .ok (runEntity (sync_folder_record now) t rows)

/-! ### Units of measure (`sync_units_of_measure`, table `unit_of_measure`) -/

structure UnitValues where
  external_id : String
  name : JVal
  code : JVal
  description : JVal
deriving Repr, Inhabited

structure UnitRow where
  id : ℕ
  external_id : String
  name : JVal
  code : JVal
  description : JVal
  last_sync_at : ℕ
  updated_at : ℕ
deriving Repr, Inhabited

structure UnitTable where
  rows : List UnitRow
  nextId : ℕ
deriving Repr, Inhabited

def insertUnitRow (id : ℕ) (v : UnitValues) (now : ℕ) : UnitRow :=
  { id := id, external_id := v.external_id
    name := v.name, code := v.code, description := v.description
    last_sync_at := now, updated_at := now }

def applyUnitUpdate (r : UnitRow) (v : UnitValues) (now : ℕ) : UnitRow :=
  { r with
    name := v.name, code := v.code, description := v.description
    last_sync_at := now, updated_at := now }

def upsert_unit (t : UnitTable) (v : UnitValues) (now : ℕ) :
    UnitTable × ℕ :=
  if t.rows.any (fun r => r.external_id == v.external_id) then
    ({ t with
       rows := t.rows.map (fun r =>
         if r.external_id == v.external_id then applyUnitUpdate r v now
         else r) }, 1)
  else
    ({ rows := t.rows ++ [insertUnitRow t.nextId v now]
       nextId := t.nextId + 1 }, 1)

def extract_unit_values (unit_data : JVal) :
    Except PyError (Option UnitValues) := do
  let uid ← jvalGet unit_data "id" .null
  if !uid.truthy then pure Option.none
  else do
    let uidS ← match uid with
      | .str s => Except.ok s
      | _ => Except.error PyError.typeError
    let fields := match unit_data with
      | .obj f => f
      | _ => []
    pure (some
      { external_id := uidS
        name := pyGetD fields "name" (.str "")
        code := pyGetD fields "code" .null
        description := pyGetD fields "description" .null })

def sync_unit_record (now : ℕ) (t : UnitTable) (unit_data : JVal) :
    UnitTable × Outcome :=
  match extract_unit_values unit_data with
  | .error _ => (t, .errored)
  | .ok Option.none => (t, .skipped)
  | .ok (some v) =>
    let r := upsert_unit t v now
    if r.2 > 0 then (r.1, .created) else (r.1, .updated)

/-- `FixedMoySkladSyncService.sync_units_of_measure`. -/
def sync_units_of_measure (t : UnitTable)
    (fetched : Except PyError (List JVal)) (now : ℕ) :
    Except PyError (UnitTable × EntityCounts) :=
  match fetched with
  | .error e => .error e
  | .ok rows => .ok (runEntity (sync_unit_record now) t rows)

/-! ### Stores (`sync_stores`, table `store`) -/

structure StoreValues where
  external_id : String
  name : JVal
  code : JVal
  description : JVal
  address : JVal
  archived : JVal
deriving Repr, Inhabited

structure StoreRow where
  id : ℕ
  external_id : String
  name : JVal
  code : JVal
  description : JVal
  address : JVal
  archived : JVal
  last_sync_at : ℕ
  updated_at : ℕ
deriving Repr, Inhabited

structure StoreTable where
  rows : List StoreRow
  nextId : ℕ
deriving Repr, Inhabited

def insertStoreRow (id : ℕ) (v : StoreValues) (now : ℕ) : StoreRow :=
  { id := id, external_id := v.external_id
    name := v.name, code := v.code, description := v.description
    address := v.address, archived := v.archived
    last_sync_at := now, updated_at := now }

def applyStoreUpdate (r : StoreRow) (v : StoreValues) (now : ℕ) : StoreRow :=
  { r with
    name := v.name, code := v.code, description := v.description
    address := v.address, archived := v.archived
    last_sync_at := now, updated_at := now }

def upsert_store (t : StoreTable) (v : StoreValues) (now : ℕ) :
    StoreTable × ℕ :=
  if t.rows.any (fun r => r.external_id == v.external_id) then
    ({ t with
       rows := t.rows.map (fun r =>
         if r.external_id == v.external_id then applyStoreUpdate r v now
         else r) }, 1)
  else
    ({ rows := t.rows ++ [insertStoreRow t.nextId v now]
       nextId := t.nextId + 1 }, 1)

/-- Extraction part of `sync_stores`' loop body; the address block is
`if "address" in store_data and store_data["address"]:
address = store_data["address"].get("addInfo", "")`. -/
def extract_store_values (store_data : JVal) :
    Except PyError (Option StoreValues) := do
  let sid ← jvalGet store_data "id" .null
  if !sid.truthy then pure Option.none
  else do
    let sidS ← match sid with
      | .str s => Except.ok s
      | _ => Except.error PyError.typeError
    let fields := match store_data with
      | .obj f => f
      | _ => []
    let address ← match pyLookup fields "address" with
      | some a =>
        if a.truthy then jvalGet a "addInfo" (.str "")
        else pure (JVal.str "")
      | Option.none => pure (JVal.str "")
    pure (some
      { external_id := sidS
        name := pyGetD fields "name" (.str "")
        code := pyGetD fields "code" .null
        description := pyGetD fields "description" .null
        address := address
        archived := pyGetD fields "archived" (.bool false) })

def sync_store_record (now : ℕ) (t : StoreTable) (store_data : JVal) :
    StoreTable × Outcome :=
  match extract_store_values store_data with
  | .error _ => (t, .errored)
  | .ok Option.none => (t, .skipped)
  | .ok (some v) =>
    let r := upsert_store t v now
    if r.2 > 0 then (r.1, .created) else (r.1, .updated)

/-- `FixedMoySkladSyncService.sync_stores`. -/
def sync_stores (t : StoreTable) (fetched : Except PyError (List JVal))
    (now : ℕ) : Except PyError (StoreTable × EntityCounts) :=
  match fetched with
  | .error e => .error e
  | .ok rows => .ok (runEntity (sync_store_record now) t rows)

/-! ### Services (`sync_services`, table `service`) -/

structure ServiceValues where
  external_id : String
  name : JVal
  code : JVal
  description : JVal
  sale_price : ℚ
  buy_price : ℚ
  min_price : ℚ
  archived : JVal
  shared : JVal
  folder_external_id : Option String
  unit_external_id : Option String
deriving Repr, Inhabited

structure ServiceRow where
  id : ℕ
  external_id : String
  name : JVal
  code : JVal
  description : JVal
  sale_price : ℚ
  buy_price : ℚ
  min_price : ℚ
  archived : JVal
  shared : JVal
  folder_external_id : Option String
  unit_external_id : Option String
  folder_id : Option ℕ
  unit_id : Option ℕ
  last_sync_at : ℕ
  updated_at : ℕ
deriving Repr, Inhabited

structure ServiceTable where
  rows : List ServiceRow
  nextId : ℕ
deriving Repr, Inhabited

def insertServiceRow (id : ℕ) (v : ServiceValues) (now : ℕ) : ServiceRow :=
  { id := id, external_id := v.external_id
    name := v.name, code := v.code, description := v.description
    sale_price := v.sale_price, buy_price := v.buy_price
    min_price := v.min_price
    archived := v.archived, shared := v.shared
    folder_external_id := v.folder_external_id
    unit_external_id := v.unit_external_id
    folder_id := Option.none, unit_id := Option.none
    last_sync_at := now, updated_at := now }

def applyServiceUpdate (r : ServiceRow) (v : ServiceValues) (now : ℕ) :
    ServiceRow :=
  { r with
    name := v.name, code := v.code, description := v.description
    sale_price := v.sale_price, buy_price := v.buy_price
    min_price := v.min_price
    archived := v.archived, shared := v.shared
    folder_external_id := v.folder_external_id
    unit_external_id := v.unit_external_id
    last_sync_at := now, updated_at := now }

def upsert_service (t : ServiceTable) (v : ServiceValues) (now : ℕ) :
    ServiceTable × ℕ :=
  if t.rows.any (fun r => r.external_id == v.external_id) then
    ({ t with
       rows := t.rows.map (fun r =>
         if r.external_id == v.external_id then applyServiceUpdate r v now
         else r) }, 1)
  else
    ({ rows := t.rows ++ [insertServiceRow t.nextId v now]
       nextId := t.nextId + 1 }, 1)

def extract_service_values (service_data : JVal) :
    Except PyError (Option ServiceValues) := do
  let sid ← jvalGet service_data "id" .null
  if !sid.truthy then pure Option.none
  else do
    let sidS ← match sid with
      | .str s => Except.ok s
      | _ => Except.error PyError.typeError
    let fields := match service_data with
      | .obj f => f
      | _ => []
    let sale_price ← match pyLookup fields "salePrices" with
      | some sp =>
        if sp.truthy then extract_sale_prices sp else pure (0 : ℚ)
      | Option.none => pure (0 : ℚ)
    let buy_price ← match pyLookup fields "buyPrice" with
      | some bp => extract_price_value bp
      | Option.none => pure (0 : ℚ)
    let min_price ← match pyLookup fields "minPrice" with
      | some mp => extract_price_value mp
      | Option.none => pure (0 : ℚ)
    let folder_external_id ← match pyLookup fields "productFolder" with
      | some v => extract_id_from_meta_or_href v
      | Option.none => pure Option.none
    let unit_external_id ← match pyLookup fields "uom" with
      | some v => extract_id_from_meta_or_href v
      | Option.none => pure Option.none
    pure (some
      { external_id := sidS
        name := pyGetD fields "name" (.str "")
        code := pyGetD fields "code" .null
        description := pyGetD fields "description" .null
        sale_price := sale_price, buy_price := buy_price
        min_price := min_price
        archived := pyGetD fields "archived" (.bool false)
        shared := pyGetD fields "shared" (.bool true)
        folder_external_id := folder_external_id
        unit_external_id := unit_external_id })

def sync_service_record (now : ℕ) (t : ServiceTable) (service_data : JVal) :
    ServiceTable × Outcome :=
  match extract_service_values service_data with
  | .error _ => (t, .errored)
  | .ok Option.none => (t, .skipped)
  | .ok (some v) =>
    let r := upsert_service t v now
    if r.2 > 0 then (r.1, .created) else (r.1, .updated)

/-- `FixedMoySkladSyncService.sync_services`. -/
def sync_services (t : ServiceTable) (fetched : Except PyError (List JVal))
    (now : ℕ) : Except PyError (ServiceTable × EntityCounts) :=
  match fetched with
  | .error e => .error e
  | .ok rows => .ok (runEntity (sync_service_record now) t rows)

/-! ### Counterparties (`sync_counterparties`, table `counterparty`) -/

structure CounterpartyValues where
  external_id : String
  name : JVal
  code : JVal
  description : JVal
  email : JVal
  phone : JVal
  legal_title : JVal
  legal_address : JVal
  actual_address : JVal
  inn : JVal
  kpp : JVal
  ogrn : JVal
  okpo : JVal
  is_supplier : JVal
  is_customer : Bool
  discount_percentage : JVal
  archived : JVal
  shared : JVal
deriving Repr, Inhabited

structure CounterpartyRow where
  id : ℕ
  external_id : String
  name : JVal
  code : JVal
  description : JVal
  email : JVal
  phone : JVal
  legal_title : JVal
  legal_address : JVal
  actual_address : JVal
  inn : JVal
  kpp : JVal
  ogrn : JVal
  okpo : JVal
  is_supplier : JVal
  is_customer : Bool
  discount_percentage : JVal
  archived : JVal
  shared : JVal
  last_sync_at : ℕ
  updated_at : ℕ
deriving Repr, Inhabited

structure CounterpartyTable where
  rows : List CounterpartyRow
  nextId : ℕ
deriving Repr, Inhabited

def insertCounterpartyRow (id : ℕ) (v : CounterpartyValues) (now : ℕ) :
    CounterpartyRow :=
  { id := id, external_id := v.external_id
    name := v.name, code := v.code, description := v.description
    email := v.email, phone := v.phone
    legal_title := v.legal_title
    legal_address := v.legal_address, actual_address := v.actual_address
    inn := v.inn, kpp := v.kpp, ogrn := v.ogrn, okpo := v.okpo
    is_supplier := v.is_supplier, is_customer := v.is_customer
    discount_percentage := v.discount_percentage
    archived := v.archived, shared := v.shared
    last_sync_at := now, updated_at := now }

def applyCounterpartyUpdate (r : CounterpartyRow) (v : CounterpartyValues)
    (now : ℕ) : CounterpartyRow :=
  { r with
    name := v.name, code := v.code, description := v.description
    email := v.email, phone := v.phone
    legal_title := v.legal_title
    legal_address := v.legal_address, actual_address := v.actual_address
    inn := v.inn, kpp := v.kpp, ogrn := v.ogrn, okpo := v.okpo
    is_supplier := v.is_supplier, is_customer := v.is_customer
    discount_percentage := v.discount_percentage
    archived := v.archived, shared := v.shared
    last_sync_at := now, updated_at := now }

def upsert_counterparty (t : CounterpartyTable) (v : CounterpartyValues)
    (now : ℕ) : CounterpartyTable × ℕ :=
  if t.rows.any (fun r => r.external_id == v.external_id) then
    ({ t with
       rows := t.rows.map (fun r =>
         if r.external_id == v.external_id then
           applyCounterpartyUpdate r v now
         else r) }, 1)
  else
    ({ rows := t.rows ++ [insertCounterpartyRow t.nextId v now]
       nextId := t.nextId + 1 }, 1)

/-- Extraction part of `sync_counterparties`' loop body.  The contact
block is guarded by `isinstance(cp_data["contactpersons"], list)` and a
length check; the address blocks additionally check truthiness, so only
a truthy non-dict address value raises here.  `email or
cp_data.get("email")` falls back to the top-level field when the contact
one is falsy. -/
def extract_counterparty_values (cp_data : JVal) :
    Except PyError (Option CounterpartyValues) := do
  let cid ← jvalGet cp_data "id" .null
  if !cid.truthy then pure Option.none
  else do
    let cidS ← match cid with
      | .str s => Except.ok s
      | _ => Except.error PyError.typeError
    let fields := match cp_data with
      | .obj f => f
      | _ => []
    let ep ← match pyLookup fields "contactpersons" with
      | some (.arr (contact :: _)) => do
        let e ← jvalGet contact "email" (.str "")
        let p ← jvalGet contact "phone" (.str "")
        pure (e, p)
      | _ => pure (JVal.str "", JVal.str "")
    let legal_address ← match pyLookup fields "legalAddress" with
      | some la =>
        if la.truthy then jvalGet la "addInfo" (.str "")
        else pure (JVal.str "")
      | Option.none => pure (JVal.str "")
    let actual_address ← match pyLookup fields "actualAddress" with
      | some aa =>
        if aa.truthy then jvalGet aa "addInfo" (.str "")
        else pure (JVal.str "")
      | Option.none => pure (JVal.str "")
    pure (some
      { external_id := cidS
        name := pyGetD fields "name" (.str "")
        code := pyGetD fields "code" .null
        description := pyGetD fields "description" .null
        email := if ep.1.truthy then ep.1 else pyGetD fields "email" .null
        phone := if ep.2.truthy then ep.2 else pyGetD fields "phone" .null
        legal_title := pyGetD fields "legalTitle" .null
        legal_address := legal_address
        actual_address := actual_address
        inn := pyGetD fields "inn" .null
        kpp := pyGetD fields "kpp" .null
        ogrn := pyGetD fields "ogrn" .null
        okpo := pyGetD fields "okpo" .null
        is_supplier := pyGetD fields "supplier" (.bool false)
        is_customer := !(pyGetD fields "supplier" (.bool false)).truthy
        discount_percentage := pyGetD fields "discountCardNumber" (.num 0)
        archived := pyGetD fields "archived" (.bool false)
        shared := pyGetD fields "shared" (.bool true) })

def sync_counterparty_record (now : ℕ) (t : CounterpartyTable)
    (cp_data : JVal) : CounterpartyTable × Outcome :=
  match extract_counterparty_values cp_data with
  | .error _ => (t, .errored)
  | .ok Option.none => (t, .skipped)
  | .ok (some v) =>
    let r := upsert_counterparty t v now
    if r.2 > 0 then (r.1, .created) else (r.1, .updated)

/-- `FixedMoySkladSyncService.sync_counterparties`. -/
def sync_counterparties (t : CounterpartyTable)
    (fetched : Except PyError (List JVal)) (now : ℕ) :
    Except PyError (CounterpartyTable × EntityCounts) :=
  match fetched with
  | .error e => .error e
  | .ok rows => .ok (runEntity (sync_counterparty_record now) t rows)

/-! ### Stock (`sync_stock`, table `stock`) -/

structure StockValues where
  external_id : String
  product_external_id : String
  store_external_id : Option String
  stock : ℚ
  reserve : ℚ
  in_transit : ℚ
  available : ℚ
  price : ℚ
  sale_price : ℚ
deriving Repr, Inhabited

structure StockRow where
  id : ℕ
  external_id : String
  product_external_id : String
  store_external_id : Option String
  stock : ℚ
  reserve : ℚ
  in_transit : ℚ
  available : ℚ
  price : ℚ
  sale_price : ℚ
  product_id : Option ℕ
  store_id : Option ℕ
  last_sync_at : ℕ
  updated_at : ℕ
deriving Repr, Inhabited

structure StockTable where
  rows : List StockRow
  nextId : ℕ
deriving Repr, Inhabited

def insertStockRow (id : ℕ) (v : StockValues) (now : ℕ) : StockRow :=
  { id := id, external_id := v.external_id
    product_external_id := v.product_external_id
    store_external_id := v.store_external_id
    stock := v.stock, reserve := v.reserve
    in_transit := v.in_transit, available := v.available
    price := v.price, sale_price := v.sale_price
    product_id := Option.none, store_id := Option.none
    last_sync_at := now, updated_at := now }

def applyStockUpdate (r : StockRow) (v : StockValues) (now : ℕ) : StockRow :=
  { r with
    product_external_id := v.product_external_id
    store_external_id := v.store_external_id
    stock := v.stock, reserve := v.reserve
    in_transit := v.in_transit, available := v.available
    price := v.price, sale_price := v.sale_price
    last_sync_at := now, updated_at := now }

def upsert_stock (t : StockTable) (v : StockValues) (now : ℕ) :
    StockTable × ℕ :=
  if t.rows.any (fun r => r.external_id == v.external_id) then
    ({ t with
       rows := t.rows.map (fun r =>
         if r.external_id == v.external_id then applyStockUpdate r v now
         else r) }, 1)
  else
    ({ rows := t.rows ++ [insertStockRow t.nextId v now]
       nextId := t.nextId + 1 }, 1)

/-- Extraction part of `sync_stock`'s loop body: the product external id
is extracted from the whole report row, the store id from
`stockByStore[0].store` when present, quantities via `float(...)` with
no scaling, prices via `extract_price_value`; the synthetic stock key is
`f"{product}_{store or 'default'}"`; `continue` on a falsy product id. -/
def extract_stock_values (stock_item : JVal) :
    Except PyError (Option StockValues) := do
  let product_external_id ← extract_id_from_meta_or_href stock_item
  let hasSbs ← pyContains stock_item "stockByStore"
  let store_external_id ←
    if hasSbs then do
      let sbs ← pyGetItem stock_item "stockByStore"
      if sbs.truthy then do
        let store_info ← match sbs with
          | .arr _ => pyIndex0 sbs
          | _ => pure sbs
        let hasStore ← pyContains store_info "store"
        if hasStore then do
          let st ← pyGetItem store_info "store"
          extract_id_from_meta_or_href st
        else pure Option.none
      else pure Option.none
    else pure Option.none
  match product_external_id with
  | Option.none => pure Option.none
  | some pid =>
    if pid == "" then pure Option.none
    else do
      let stock_qty ← do
        let v ← jvalGet stock_item "stock" (.num 0)
        pyFloat v
      let reserve_qty ← do
        let v ← jvalGet stock_item "reserve" (.num 0)
        pyFloat v
      let in_transit_qty ← do
        let v ← jvalGet stock_item "inTransit" (.num 0)
        pyFloat v
      let available_qty ← do
        let v ← jvalGet stock_item "quantity" (.num 0)
        pyFloat v
      let priceObj ← jvalGet stock_item "price" .null
      let price ← extract_price_value priceObj
      let salePriceObj ← jvalGet stock_item "salePrice" .null
      let sale_price ← extract_price_value salePriceObj
      let storePart := match store_external_id with
        | some s => if s == "" then "default" else s
        | Option.none => "default"
      pure (some
        { external_id := pid ++ "_" ++ storePart
          product_external_id := pid
          store_external_id := store_external_id
          stock := stock_qty, reserve := reserve_qty
          in_transit := in_transit_qty, available := available_qty
          price := price, sale_price := sale_price })

def sync_stock_record (now : ℕ) (t : StockTable) (stock_item : JVal) :
    StockTable × Outcome :=
  match extract_stock_values stock_item with
  | .error _ => (t, .errored)
  | .ok Option.none => (t, .skipped)
  | .ok (some v) =>
    let r := upsert_stock t v now
    if r.2 > 0 then (r.1, .created) else (r.1, .updated)

/-- `FixedMoySkladSyncService.sync_stock`. -/
def sync_stock (t : StockTable) (fetched : Except PyError (List JVal))
    (now : ℕ) : Except PyError (StockTable × EntityCounts) :=
  match fetched with
  | .error e => .error e
  | .ok rows => .ok (runEntity (sync_stock_record now) t rows)

/-! ### Reference Resolver (`update_foreign_key_relationships`)

Each SQL statement has the shape

```
UPDATE dep SET resolved = ref.id
FROM ref
WHERE dep.pending = ref.external_id AND dep.resolved IS NULL
```

modelled row-wise: a dependent row whose resolved column is already
non-null, or whose pending column is `NULL`, or matches no referenced
row, is untouched; otherwise its resolved column is set to the unique
matching referenced row's surrogate id (external ids are unique within
an entity type, so `find?` picks it). -/

/-- The effect of the product→folder `UPDATE` on one dependent row:
rows with a non-null `folder_id` are excluded by the predicate, a null
pending reference matches nothing, and otherwise the (unique) folder
with the pending external id supplies its surrogate id. -/
def resolve_product_folder_row (folders : List FolderRow)
    (p : ProductRow) : ProductRow :=
  if p.folder_id.isSome then p
  else
    ((p.folder_external_id.bind
        (fun ext => folders.find? (fun f => f.external_id == ext))).map
      (fun f => { p with folder_id := some f.id })).getD p

/-- `UPDATE product SET folder_id = pf.id FROM product_folder pf …`. -/
def resolve_product_folder (folders : List FolderRow)
    (products : List ProductRow) : List ProductRow :=
  products.map (resolve_product_folder_row folders)

def resolve_product_unit_row (units : List UnitRow) (p : ProductRow) :
    ProductRow :=
  if p.unit_id.isSome then p
  else
    ((p.unit_external_id.bind
        (fun ext => units.find? (fun u => u.external_id == ext))).map
      (fun u => { p with unit_id := some u.id })).getD p

/-- `UPDATE product SET unit_id = uom.id FROM unit_of_measure uom …`. -/
def resolve_product_unit (units : List UnitRow)
    (products : List ProductRow) : List ProductRow :=
  products.map (resolve_product_unit_row units)

/-- `UPDATE service SET folder_id = pf.id FROM product_folder pf …`. -/
def resolve_service_folder (folders : List FolderRow)
    (services : List ServiceRow) : List ServiceRow :=
  services.map fun s =>
    if s.folder_id.isSome then s
    else
      ((s.folder_external_id.bind
          (fun ext => folders.find? (fun f => f.external_id == ext))).map
        (fun f => { s with folder_id := some f.id })).getD s

/-- `UPDATE service SET unit_id = uom.id FROM unit_of_measure uom …`. -/
def resolve_service_unit (units : List UnitRow)
    (services : List ServiceRow) : List ServiceRow :=
  services.map fun s =>
    if s.unit_id.isSome then s
    else
      ((s.unit_external_id.bind
          (fun ext => units.find? (fun u => u.external_id == ext))).map
        (fun u => { s with unit_id := some u.id })).getD s

/-- `UPDATE stock SET product_id = p.id FROM product p …`; the pending
column `product_external_id` is non-nullable. -/
def resolve_stock_product (products : List ProductRow)
    (stocks : List StockRow) : List StockRow :=
  stocks.map fun s =>
    if s.product_id.isSome then s
    else
      ((products.find?
          (fun p => p.external_id == s.product_external_id)).map
        (fun p => { s with product_id := some p.id })).getD s

/-- `UPDATE stock SET store_id = st.id FROM store st …`. -/
def resolve_stock_store (stores : List StoreRow)
    (stocks : List StockRow) : List StockRow :=
  stocks.map fun s =>
    if s.store_id.isSome then s
    else
      ((s.store_external_id.bind
          (fun ext => stores.find? (fun st => st.external_id == ext))).map
        (fun st => { s with store_id := some st.id })).getD s

/-- The whole local store touched by the fixed service. -/
structure SyncState where
  units : UnitTable
  folders : FolderTable
  stores : StoreTable
  products : ProductTable
  services : ServiceTable
  counterparties : CounterpartyTable
  stock : StockTable
deriving Repr, Inhabited

/-- The empty local store. -/
def SyncState.empty : SyncState :=
  { units := ⟨[], 1⟩, folders := ⟨[], 1⟩, stores := ⟨[], 1⟩
    products := ⟨[], 1⟩, services := ⟨[], 1⟩
    counterparties := ⟨[], 1⟩, stock := ⟨[], 1⟩ }

/-- `FixedMoySkladSyncService.update_foreign_key_relationships`: the six
set-based `UPDATE` statements, in source order. -/
def update_foreign_key_relationships (st : SyncState) : SyncState :=
  let products := resolve_product_folder st.folders.rows st.products.rows
  let products := resolve_product_unit st.units.rows products
  let services := resolve_service_folder st.folders.rows st.services.rows
  let services := resolve_service_unit st.units.rows services
  let stocks := resolve_stock_product products st.stock.rows
  let stocks := resolve_stock_store st.stores.rows stocks
  { st with
    products := { st.products with rows := products }
    services := { st.services with rows := services }
    stock := { st.stock with rows := stocks } }

/-! ### Orchestrator entry points -/

/-- The per-entity tallies of `self.results`. -/
structure SyncDetails where
  product_folders : EntityCounts
  units : EntityCounts
  products : EntityCounts
  services : EntityCounts
  counterparties : EntityCounts
  stores : EntityCounts
  stock : EntityCounts
deriving Repr, DecidableEq, Inhabited

/-- The structured result of `full_sync`. -/
structure FullSummary where
  status : String
  total_created : ℕ
  total_updated : ℕ
  total_errors : ℕ
  details : SyncDetails
deriving Repr, DecidableEq, Inhabited

/-- The structured result of the fixed service's `incremental_sync`
(`total_updated` there is `sum(created + updated)` over all entities). -/
structure IncSummary where
  status : String
  total_updated : ℕ
  details : SyncDetails
deriving Repr, DecidableEq, Inhabited

/-- The raw pages fetched for one run, one list per entity collection
(`client.get_<entity>()` results). -/
structure FetchedData where
  units : Except PyError (List JVal)
  folders : Except PyError (List JVal)
  stores : Except PyError (List JVal)
  products : Except PyError (List JVal)
  services : Except PyError (List JVal)
  counterparties : Except PyError (List JVal)
  stock : Except PyError (List JVal)

/-- `FixedMoySkladSyncService.full_sync`: test the connection (raising
`IntegrationError` on failure), sync the seven entity types in
dependency order — any entity-level exception propagates (`except …
raise`) — run the Reference Resolver, and aggregate the totals into a
`completed` summary. -/
def full_sync (st : SyncState) (connection_success : Bool)
    (data : FetchedData) (now : ℕ) :
    Except PyError (SyncState × FullSummary) := do
  if !connection_success then
    throw (PyError.integrationError 0)
  let u ← sync_units_of_measure st.units data.units now
  let f ← sync_product_folders st.folders data.folders now
  let s ← sync_stores st.stores data.stores now
  let p ← sync_products st.products data.products now
  let sv ← sync_services st.services data.services now
  let c ← sync_counterparties st.counterparties data.counterparties now
  let k ← sync_stock st.stock data.stock now
  let st' : SyncState :=
    { units := u.1, folders := f.1, stores := s.1, products := p.1
      services := sv.1, counterparties := c.1, stock := k.1 }
  let st' := update_foreign_key_relationships st'
  let details : SyncDetails :=
    { product_folders := f.2, units := u.2, products := p.2
      services := sv.2, counterparties := c.2, stores := s.2
      stock := k.2 }
  pure (st',
    { status := "completed"
      total_created := f.2.created + u.2.created + p.2.created
        + sv.2.created + c.2.created + s.2.created + k.2.created
      total_updated := f.2.updated + u.2.updated + p.2.updated
        + sv.2.updated + c.2.updated + s.2.updated + k.2.updated
      total_errors := f.2.errors + u.2.errors + p.2.errors
        + sv.2.errors + c.2.errors + s.2.errors + k.2.errors
      details := details })

/-- `FixedMoySkladSyncService.incremental_sync`: sync only products,
services, counterparties and stock, then resolve relationships.  The
body's `except Exception: … raise` re-raises, so an entity-level failure
escapes to the caller. -/
def incremental_sync (st : SyncState)
    (products_data services_data counterparties_data stock_data :
      Except PyError (List JVal)) (now : ℕ) :
    Except PyError (SyncState × IncSummary) := do
  let p ← sync_products st.products products_data now
  let sv ← sync_services st.services services_data now
  let c ← sync_counterparties st.counterparties counterparties_data now
  let k ← sync_stock st.stock stock_data now
  let st' : SyncState :=
    { st with products := p.1, services := sv.1
              counterparties := c.1, stock := k.1 }
  let st' := update_foreign_key_relationships st'
  let details : SyncDetails :=
    { product_folders := ⟨0, 0, 0⟩, units := ⟨0, 0, 0⟩
      products := p.2, services := sv.2, counterparties := c.2
      stores := ⟨0, 0, 0⟩, stock := k.2 }
  pure (st',
    { status := "completed"
      total_updated := (p.2.updated + p.2.created)
        + (sv.2.updated + sv.2.created) + (c.2.updated + c.2.created)
        + (k.2.updated + k.2.created)
      details := details })

/-! ## Legacy sync service (`sync_service.py`, `MoySkladSyncService`)

The superseded service differs from the fixed one in two ways that
matter here: every `sync_<entity>` method wraps its whole body in
`try … except Exception: return {"created": 0, "updated": 0,
"errors": 1}` (no per-record `try`, nothing re-raised), and the
insert-vs-update tally tests `result.rowcount == 2` (a MySQL convention;
PostgreSQL reports `1` on both upsert arms). -/

structure OrgValues where
  external_id : String
  name : JVal
  code : JVal
  description : JVal
  legal_title : JVal
  legal_address : JVal
  actual_address : JVal
  inn : JVal
  kpp : JVal
  ogrn : JVal
  okpo : JVal
  email : JVal
  phone : JVal
  fax : JVal
  bank_accounts : Option JVal
  archived : JVal
  shared : JVal
  chief_accountant_external_id : Option String
deriving Repr, Inhabited

structure OrgRow where
  id : ℕ
  external_id : String
  name : JVal
  code : JVal
  description : JVal
  legal_title : JVal
  legal_address : JVal
  actual_address : JVal
  inn : JVal
  kpp : JVal
  ogrn : JVal
  okpo : JVal
  email : JVal
  phone : JVal
  fax : JVal
  bank_accounts : Option JVal
  archived : JVal
  shared : JVal
  chief_accountant_external_id : Option String
  last_sync_at : ℕ
deriving Repr, Inhabited

structure OrgTable where
  rows : List OrgRow
  nextId : ℕ
deriving Repr, Inhabited

def insertOrgRow (id : ℕ) (v : OrgValues) (now : ℕ) : OrgRow :=
  { id := id, external_id := v.external_id
    name := v.name, code := v.code, description := v.description
    legal_title := v.legal_title
    legal_address := v.legal_address, actual_address := v.actual_address
    inn := v.inn, kpp := v.kpp, ogrn := v.ogrn, okpo := v.okpo
    email := v.email, phone := v.phone, fax := v.fax
    bank_accounts := v.bank_accounts
    archived := v.archived, shared := v.shared
    chief_accountant_external_id := v.chief_accountant_external_id
    last_sync_at := now }

/-- The legacy organization upsert's `set_` updates only a subset of the
inserted columns (`ogrn`, `okpo`, `fax`, `shared` and the chief
accountant pointer are not refreshed). -/
def applyOrgUpdate (r : OrgRow) (v : OrgValues) (now : ℕ) : OrgRow :=
  { r with
    name := v.name, code := v.code, description := v.description
    legal_title := v.legal_title
    legal_address := v.legal_address, actual_address := v.actual_address
    inn := v.inn, kpp := v.kpp
    email := v.email, phone := v.phone
    bank_accounts := v.bank_accounts
    archived := v.archived
    last_sync_at := now }

def upsert_org (t : OrgTable) (v : OrgValues) (now : ℕ) : OrgTable × ℕ :=
  if t.rows.any (fun r => r.external_id == v.external_id) then
    ({ t with
       rows := t.rows.map (fun r =>
         if r.external_id == v.external_id then applyOrgUpdate r v now
         else r) }, 1)
  else
    ({ rows := t.rows ++ [insertOrgRow t.nextId v now]
       nextId := t.nextId + 1 }, 1)

/-- The `chiefAccountant` / `organization` pointer extraction of the
legacy service: `obj[k].get("meta", {}).get("href", "")`, taking the
last slash component when the href is truthy. -/
def extract_pointer_old (fields : PyDict) (k : String) :
    Except PyError (Option String) :=
  match pyLookup fields k with
  | some v => do
    let meta ← jvalGet v "meta" (.obj [])
    let href ← jvalGet meta "href" (.str "")
    if href.truthy then (pySplitLastSlash href).map some
    else pure Option.none
  | Option.none => pure Option.none

/-- One record of the legacy `sync_organizations` loop (no per-record
`try`: a raised error aborts the whole entity). -/
def sync_org_record_old (now : ℕ) (t : OrgTable) (org_data : JVal) :
    Except PyError (OrgTable × Outcome) := do
  let oid ← jvalGet org_data "id" .null
  if !oid.truthy then pure (t, .skipped)
  else do
    let oidS ← match oid with
      | .str s => Except.ok s
      | _ => Except.error PyError.typeError
    let fields := match org_data with
      | .obj f => f
      | _ => []
    let bank_accounts := (pyLookup fields "accounts").map id
    let chief ← extract_pointer_old fields "chiefAccountant"
    let v : OrgValues :=
      { external_id := oidS
        name := pyGetD fields "name" (.str "")
        code := pyGetD fields "code" .null
        description := pyGetD fields "description" .null
        legal_title := pyGetD fields "legalTitle" .null
        legal_address := pyGetD fields "legalAddress" .null
        actual_address := pyGetD fields "actualAddress" .null
        inn := pyGetD fields "inn" .null
        kpp := pyGetD fields "kpp" .null
        ogrn := pyGetD fields "ogrn" .null
        okpo := pyGetD fields "okpo" .null
        email := pyGetD fields "email" .null
        phone := pyGetD fields "phone" .null
        fax := pyGetD fields "fax" .null
        bank_accounts := bank_accounts
        archived := pyGetD fields "archived" (.bool false)
        shared := pyGetD fields "shared" (.bool true)
        chief_accountant_external_id := chief }
    let r := upsert_org t v now
    if r.2 == 2 then pure (r.1, .updated) else pure (r.1, .created)

/-- The legacy entity loop: records processed in order, the first raised
error aborting the entity with `{"created": 0, "updated": 0,
"errors": 1}` (accumulated tallies are discarded; table writes made so
far remain). -/
def runEntityOld {τ : Type} (step : τ → JVal → Except PyError (τ × Outcome)) :
    τ → EntityCounts → List JVal → τ × EntityCounts
  | t, c, [] => (t, c)
  | t, c, d :: rest =>
    match step t d with
    | .error _ => (t, ⟨0, 0, 1⟩)
    | .ok (t', o) => runEntityOld step t' (c.add o) rest

/-- `MoySkladSyncService.sync_organizations`.  The whole body is inside
`try … except: return {"created": 0, "updated": 0, "errors": 1}`.  A
string response would be re-parsed with `json.loads`; payloads here are
structured, so that branch is modelled as the same error tally the
parse-failure path returns.  A non-dict response and a failed fetch also
land in the error tally. -/
def sync_organizations_old (t : OrgTable) (fetch : Except PyError JVal)
    (now : ℕ) : OrgTable × EntityCounts :=
  match fetch with
  | .error _ => (t, ⟨0, 0, 1⟩)
  | .ok (.obj fields) =>
    let rows := pyGetD fields "rows" (.arr [])
    match pyIterate rows with
    | .error _ => (t, ⟨0, 0, 1⟩)
    | .ok items => runEntityOld (sync_org_record_old now) t ⟨0, 0, 0⟩ items
  | .ok _ => (t, ⟨0, 0, 1⟩)

structure EmployeeValues where
  external_id : String
  first_name : JVal
  middle_name : JVal
  last_name : JVal
  full_name : JVal
  position : JVal
  code : JVal
  email : JVal
  phone : JVal
  permissions_data : Option JVal
  archived : JVal
  shared : JVal
  cashier_inn : JVal
  organization_external_id : Option String
deriving Repr, Inhabited

structure EmployeeRow where
  id : ℕ
  external_id : String
  first_name : JVal
  middle_name : JVal
  last_name : JVal
  full_name : JVal
  position : JVal
  code : JVal
  email : JVal
  phone : JVal
  permissions_data : Option JVal
  archived : JVal
  shared : JVal
  cashier_inn : JVal
  organization_external_id : Option String
  organization_id : Option ℕ
  last_sync_at : ℕ
deriving Repr, Inhabited

structure EmployeeTable where
  rows : List EmployeeRow
  nextId : ℕ
deriving Repr, Inhabited

def insertEmployeeRow (id : ℕ) (v : EmployeeValues) (now : ℕ) :
    EmployeeRow :=
  { id := id, external_id := v.external_id
    first_name := v.first_name, middle_name := v.middle_name
    last_name := v.last_name, full_name := v.full_name
    position := v.position, code := v.code
    email := v.email, phone := v.phone
    permissions_data := v.permissions_data
    archived := v.archived, shared := v.shared
    cashier_inn := v.cashier_inn
    organization_external_id := v.organization_external_id
    organization_id := Option.none
    last_sync_at := now }

/-- The legacy employee upsert's `set_` columns (`code`, `shared` and
`cashier_inn` are not refreshed). -/
def applyEmployeeUpdate (r : EmployeeRow) (v : EmployeeValues) (now : ℕ) :
    EmployeeRow :=
  { r with
    first_name := v.first_name, middle_name := v.middle_name
    last_name := v.last_name, full_name := v.full_name
    position := v.position
    email := v.email, phone := v.phone
    permissions_data := v.permissions_data
    archived := v.archived
    organization_external_id := v.organization_external_id
    last_sync_at := now }

def upsert_employee (t : EmployeeTable) (v : EmployeeValues) (now : ℕ) :
    EmployeeTable × ℕ :=
  if t.rows.any (fun r => r.external_id == v.external_id) then
    ({ t with
       rows := t.rows.map (fun r =>
         if r.external_id == v.external_id then applyEmployeeUpdate r v now
         else r) }, 1)
  else
    ({ rows := t.rows ++ [insertEmployeeRow t.nextId v now]
       nextId := t.nextId + 1 }, 1)

/-- `" ".join(filter(None, parts))`: falsy parts are dropped, the rest
must be strings (`TypeError` otherwise). -/
def pyJoinNames (parts : List JVal) : Except PyError String := do
  let kept := parts.filter JVal.truthy
  let strs ← kept.mapM (fun v => match v with
    | .str s => Except.ok s
    | _ => Except.error PyError.typeError)
  pure (String.intercalate " " strs)

/-- One record of the legacy `sync_employees` loop. -/
def sync_employee_record_old (now : ℕ) (t : EmployeeTable)
    (emp_data : JVal) : Except PyError (EmployeeTable × Outcome) := do
  let eid ← jvalGet emp_data "id" .null
  if !eid.truthy then pure (t, .skipped)
  else do
    let eidS ← match eid with
      | .str s => Except.ok s
      | _ => Except.error PyError.typeError
    let fields := match emp_data with
      | .obj f => f
      | _ => []
    let org ← extract_pointer_old fields "organization"
    let first_name := pyGetD fields "firstName" (.str "")
    let middle_name := pyGetD fields "middleName" (.str "")
    let last_name := pyGetD fields "lastName" (.str "")
    let full_name ← pyJoinNames [last_name, first_name, middle_name]
    let permissions := (pyLookup fields "permissions").map id
    let v : EmployeeValues :=
      { external_id := eidS
        first_name := first_name, middle_name := middle_name
        last_name := last_name
        full_name := if full_name == "" then pyGetD fields "name" (.str "")
          else .str full_name
        position := pyGetD fields "position" .null
        code := pyGetD fields "code" .null
        email := pyGetD fields "email" .null
        phone := pyGetD fields "phone" .null
        permissions_data := permissions
        archived := pyGetD fields "archived" (.bool false)
        shared := pyGetD fields "shared" (.bool true)
        cashier_inn := pyGetD fields "inn" .null
        organization_external_id := org }
    let r := upsert_employee t v now
    if r.2 == 2 then pure (r.1, .updated) else pure (r.1, .created)

/-- `MoySkladSyncService.sync_employees` (same catch-all shape as
`sync_organizations`, without the string-response branch mattering). -/
def sync_employees_old (t : EmployeeTable) (fetch : Except PyError JVal)
    (now : ℕ) : EmployeeTable × EntityCounts :=
  match fetch with
  | .error _ => (t, ⟨0, 0, 1⟩)
  | .ok (.obj fields) =>
    let rows := pyGetD fields "rows" (.arr [])
    match pyIterate rows with
    | .error _ => (t, ⟨0, 0, 1⟩)
    | .ok items =>
      runEntityOld (sync_employee_record_old now) t ⟨0, 0, 0⟩ items
  | .ok _ => (t, ⟨0, 0, 1⟩)

/-- `UPDATE employee e SET organization_id = o.id FROM organization o
WHERE e.organization_external_id = o.external_id AND e.organization_id
IS NULL`, the first statement of the legacy `resolve_foreign_keys`.
The remaining statements update the `contract` and `product` tables,
which the legacy incremental entry point never writes; they have the
same relational shape and are outside this model's state. -/
def resolve_employee_org (orgs : List OrgRow)
    (employees : List EmployeeRow) : List EmployeeRow :=
  employees.map fun e =>
    if e.organization_id.isSome then e
    else
      ((e.organization_external_id.bind
          (fun ext => orgs.find? (fun o => o.external_id == ext))).map
        (fun o => { e with organization_id := some o.id })).getD e

/-- The slice of the local store touched by the legacy incremental sync. -/
structure OldState where
  orgs : OrgTable
  employees : EmployeeTable
deriving Repr, Inhabited

/-- The summary dict returned by the legacy `incremental_sync`
(`total_updated = sum(entity.get("updated", 0))`). -/
structure OldIncSummary where
  status : String
  total_updated : ℕ
  organizations : EntityCounts
  employees : EntityCounts
deriving Repr, DecidableEq, Inhabited

/-- `MoySkladSyncService.incremental_sync`: organizations and employees
are synced (each absorbing every failure into its own error tally), then
foreign keys are resolved.  Nothing in the body after client creation
can raise, so the entry point always returns a summary. -/
def incremental_sync_old (st : OldState)
    (orgs_fetch employees_fetch : Except PyError JVal) (now : ℕ) :
    OldState × OldIncSummary :=
  let o := sync_organizations_old st.orgs orgs_fetch now
  let e := sync_employees_old st.employees employees_fetch now
  let employees := resolve_employee_org o.1.rows e.1.rows
  ({ orgs := o.1, employees := { e.1 with rows := employees } },
   { status := "completed"
     total_updated := o.2.updated + e.2.updated
     organizations := o.2
     employees := e.2 })

/-! ## Remote client (`client.py`, `MoySkladClient`) -/

/-- `MoySkladClient._make_request`'s status handling: a 2xx response
yields the parsed body, everything else raises `IntegrationError` (401,
403 and other statuses differ only in message; the status is carried
here to distinguish auth errors from `RemoteApiError`-style failures). -/
def make_request (status : ℕ) (body : JVal) : Except PyError JVal :=
  if 200 ≤ status && status < 300 then .ok body
  else .error (.integrationError status)

/-- The `while True` loop of `MoySkladClient.get_paginated`, with an
explicit fuel bound standing in for the unbounded loop (every property
proved below holds for any sufficient fuel).  `fetch offset limit`
models `self.get(endpoint, params)` with `params["offset"] = offset` and
`params["limit"] = limit`.  The returned first component is the list of
offsets actually requested, one per page fetch.  Any exception inside
the loop body — including the `IntegrationError` a non-2xx response
raises in `_make_request` — is caught, logged and turned into `break`,
so the rows accumulated so far are returned. -/
def get_paginated_loop (fetch : ℕ → ℕ → Except PyError JVal) (limit : ℕ) :
    ℕ → List ℕ → List JVal → ℕ → List ℕ × List JVal
  | _, offsets, acc, 0 => (offsets, acc)
  | offset, offsets, acc, fuel + 1 =>
    let offsets := offsets ++ [offset]
    match (do
        let resp ← fetch offset limit
        jvalGet resp "rows" (.arr []) :
        Except PyError JVal) with
    | .error _ => (offsets, acc)
    | .ok rows =>
      if !rows.truthy then (offsets, acc)
      else
        match (do
            let items ← pyIterate rows
            let n ← pyLen rows
            pure (items, n) : Except PyError (List JVal × ℕ)) with
        | .error _ => (offsets, acc)
        | .ok (items, n) =>
          if n < limit then (offsets, acc ++ items)
          else get_paginated_loop fetch limit (offset + n) offsets
            (acc ++ items) fuel

/-- `MoySkladClient.get_paginated`: page size capped at 100 for expand
queries, offset starting at 0. -/
def get_paginated (fetch : ℕ → ℕ → Except PyError JVal)
    (hasExpand : Bool) (limit : ℕ) (fuel : ℕ) : List ℕ × List JVal :=
  let limit := if hasExpand then min limit 100 else limit
  get_paginated_loop fetch limit 0 [] [] fuel

/-! ## Auxiliary predicates and concrete inputs used by the theorems -/

/-- The record's `contactpersons` entry, when present and truthy, is a
list whose first element is a dict — the shape `map_counterparty`'s
contact block can consume without raising. -/
def contactsOk (d : PyDict) : Bool :=
  match pyLookup d "contactpersons" with
  | Option.none => true
  | some v =>
    !v.truthy ||
      (match v with
       | .arr (.obj _ :: _) => true
       | _ => false)

/-- The record's entry at `k`, when present, is a dict — the shape the
mapper's `data[k].get(...)` accesses require. -/
def nestedObjOk (d : PyDict) (k : String) : Bool :=
  match pyLookup d k with
  | Option.none => true
  | some (.obj _) => true
  | some _ => false

/-- The record's `meta` entry, when present and truthy, is a dict — a
sufficient condition for `extract_id_from_meta` not to raise. -/
def metaOk (d : PyDict) : Bool :=
  match pyLookup d "meta" with
  | Option.none => true
  | some v =>
    !v.truthy ||
      (match v with
       | .obj _ => true
       | _ => false)

/-- The record's quantity entries, when present, are numbers or booleans
— the values `map_stock`'s `/ 1000` divisions accept. -/
def qtyOk (d : PyDict) (k : String) : Bool :=
  match pyLookup d k with
  | Option.none => true
  | some (.num _) => true
  | some (.bool _) => true
  | some _ => false

/-- The `last_sync_at` timestamp of a mapper result, when present. -/
def lastSyncOf (r : Except PyError (List (String × Val))) : Option ℕ :=
  match r with
  | .ok m =>
    match recLookup m "last_sync_at" with
    | some (.time t) => some t
    | _ => Option.none
  | .error _ => Option.none

/-- A remote whose page at offset 0 is full (2 rows with `limit = 2`)
and whose page at offset 2 answers with HTTP status 500 — the
`RemoteApiError` situation of the error-handling spec. -/
def c6remote : ℕ → ℕ → Except PyError JVal := fun offset _ =>
  if offset = 0 then
    make_request 200 (.obj [("rows", .arr [.str "a", .str "b"])])
  else
    make_request 500 (.obj [("errors", .arr [.str "boom"])])

/-- A one-product remote dataset (all other collections empty), used to
run `full_sync` twice. -/
def c3data : FetchedData :=
  { units := .ok [], folders := .ok [], stores := .ok []
    products := .ok [.obj [("id", .str "P1"), ("name", .str "Widget")]]
    services := .ok [], counterparties := .ok [], stock := .ok [] }

/-- A concrete mapped product record used to exercise the upsert. -/
def c1values : ProductValues :=
  { external_id := "P1", name := .str "Widget", code := .null
    article := .null, description := .null
    sale_price := 125, buy_price := 0, min_price := 0
    weight := Option.none, volume := Option.none
    archived := .bool false, shared := .bool true
    folder_external_id := some "F1", unit_external_id := Option.none
    supplier_external_id := Option.none }

/-- A concrete folder row for exercising the resolver. -/
def c2folder : FolderRow :=
  { id := 10, external_id := "F1", name := .str "Folder"
    code := .null, description := .null, path_name := .str ""
    parent_external_id := Option.none, archived := .bool false
    last_sync_at := 0, updated_at := 0 }

/-- A concrete product row pending on folder `F1`, unresolved. -/
def c2product : ProductRow :=
  { id := 1, external_id := "P1", name := .str "Widget"
    code := .null, article := .null, description := .null
    sale_price := 0, buy_price := 0, min_price := 0
    weight := Option.none, volume := Option.none
    archived := .bool false, shared := .bool true
    folder_external_id := some "F1", unit_external_id := Option.none
    supplier_external_id := Option.none
    folder_id := Option.none, unit_id := Option.none
    last_sync_at := 0, updated_at := 0 }

/-- The value `full_sync` computes when the connection test passes and
all seven fetches succeed: each entity loop runs on its own table slice,
the Reference Resolver is applied, and the tallies are summed. -/
def full_sync_ok_result (st : SyncState) (u f so p sv c k : List JVal)
    (now : ℕ) : SyncState × FullSummary :=
  let ru := runEntity (sync_unit_record now) st.units u
  let rf := runEntity (sync_folder_record now) st.folders f
  let rs := runEntity (sync_store_record now) st.stores so
  let rp := runEntity (sync_product_record now) st.products p
  let rsv := runEntity (sync_service_record now) st.services sv
  let rc := runEntity (sync_counterparty_record now) st.counterparties c
  let rk := runEntity (sync_stock_record now) st.stock k
  (update_foreign_key_relationships
    { units := ru.1, folders := rf.1, stores := rs.1, products := rp.1
      services := rsv.1, counterparties := rc.1, stock := rk.1 },
   { status := "completed"
     total_created := rf.2.created + ru.2.created + rp.2.created
       + rsv.2.created + rc.2.created + rs.2.created + rk.2.created
     total_updated := rf.2.updated + ru.2.updated + rp.2.updated
       + rsv.2.updated + rc.2.updated + rs.2.updated + rk.2.updated
     total_errors := rf.2.errors + ru.2.errors + rp.2.errors
       + rsv.2.errors + rc.2.errors + rs.2.errors + rk.2.errors
     details :=
       { product_folders := rf.2, units := ru.2, products := rp.2
         services := rsv.2, counterparties := rc.2, stores := rs.2
         stock := rk.2 } })

/-- The external id under which a raw product record would be upserted:
`none` when the record is skipped (falsy id) or its extraction raises. -/
def prodKey (d : JVal) : Option String :=
  match extract_product_values d with
  | .ok (some v) => some v.external_id
  | _ => Option.none

/-- One pagination step of `get_paginated`: the page requested at offset
`o` succeeded with some rows and the next request went to
`o + len(rows)` — the offset advanced by exactly the number of rows the
page returned. -/
def pageAdvance (fetch : ℕ → ℕ → Except PyError JVal) (limit : ℕ)
    (o o' : ℕ) : Prop :=
  ∃ rows n,
    (do
      let resp ← fetch o limit
      jvalGet resp "rows" (.arr []) : Except PyError JVal) = .ok rows ∧
    pyLen rows = .ok n ∧ o' = o + n

/-! ## Theorems

### Generic `Except` plumbing -/

theorem except_bind_ok {ε α β : Type} (a : α) (f : α → Except ε β) :
    (Except.ok a >>= f) = f a := rfl

theorem except_bind_error {ε α β : Type} (e : ε) (f : α → Except ε β) :
    ((Except.error e : Except ε α) >>= f) = .error e := rfl

/-! ### Inversion of the mapper cores -/

theorem map_product_core_ok_iff (data : PyDict)
    (t : Val × Val × Val × Option String × Val × Val) :
    map_product_core data = .ok t ↔
      salePriceField data = .ok t.1 ∧
      singlePriceField data "buyPrice" = .ok t.2.1 ∧
      singlePriceField data "minPrice" = .ok t.2.2.1 ∧
      extract_id_from_meta (pyGetD data "meta" .null) = .ok t.2.2.2.1 ∧
      weightField data = .ok t.2.2.2.2.1 ∧
      volumeField data = .ok t.2.2.2.2.2 := by
  obtain ⟨a, b, c, d, e, f⟩ := t
  unfold map_product_core
  cases h1 : salePriceField data <;>
    cases h2 : singlePriceField data "buyPrice" <;>
      cases h3 : singlePriceField data "minPrice" <;>
        cases h4 : extract_id_from_meta (pyGetD data "meta" .null) <;>
          cases h5 : weightField data <;>
            cases h6 : volumeField data <;>
              simp [h1, h2, h3, h4, h5, h6, except_bind_ok, except_bind_error,
                pure, Except.pure, and_assoc, eq_comm]

theorem map_counterparty_core_ok_iff (data : PyDict)
    (t : Val × Val × Val × Val × Option String) :
    map_counterparty_core data = .ok t ↔
      contactField data = .ok (t.1, t.2.1) ∧
      addressField data "legalAddress" = .ok t.2.2.1 ∧
      addressField data "actualAddress" = .ok t.2.2.2.1 ∧
      extract_id_from_meta (pyGetD data "meta" .null) = .ok t.2.2.2.2 := by
  obtain ⟨a, b, c, d, e⟩ := t
  unfold map_counterparty_core
  cases h1 : contactField data <;>
    cases h2 : addressField data "legalAddress" <;>
      cases h3 : addressField data "actualAddress" <;>
        cases h4 : extract_id_from_meta (pyGetD data "meta" .null) <;>
          simp [h1, h2, h3, h4, except_bind_ok, except_bind_error,
            pure, Except.pure, and_assoc, eq_comm, Prod.ext_iff]

theorem map_stock_core_ok_iff (data : PyDict)
    (t : Option String × ℚ × ℚ × ℚ × ℚ) :
    map_stock_core data = .ok t ↔
      extract_id_from_meta (pyGetD data "meta" .null) = .ok t.1 ∧
      stockQtyField data "stock" = .ok t.2.1 ∧
      stockQtyField data "inTransit" = .ok t.2.2.1 ∧
      stockQtyField data "reserve" = .ok t.2.2.2.1 ∧
      stockQtyField data "quantity" = .ok t.2.2.2.2 := by
  obtain ⟨a, b, c, d, e⟩ := t
  unfold map_stock_core
  cases h1 : extract_id_from_meta (pyGetD data "meta" .null) <;>
    cases h2 : stockQtyField data "stock" <;>
      cases h3 : stockQtyField data "inTransit" <;>
        cases h4 : stockQtyField data "reserve" <;>
          cases h5 : stockQtyField data "quantity" <;>
            simp [h1, h2, h3, h4, h5, except_bind_ok, except_bind_error,
              pure, Except.pure, and_assoc, eq_comm]

/-! ### Column lookups in the assembled records -/

theorem product_record_lookups (data : PyDict) (now : ℕ)
    (tup : Val × Val × Val × Option String × Val × Val) :
    recLookup (product_record data now tup) "sale_price" = some tup.1 ∧
    recLookup (product_record data now tup) "buy_price" = some tup.2.1 ∧
    recLookup (product_record data now tup) "min_price" = some tup.2.2.1 ∧
    recLookup (product_record data now tup) "weight" = some tup.2.2.2.2.1 ∧
    recLookup (product_record data now tup) "volume" = some tup.2.2.2.2.2 ∧
    recLookup (product_record data now tup) "last_sync_at" = some (.time now) := by
  obtain ⟨a, b, c, d, e, f⟩ := tup
  refine ⟨?_, ?_, ?_, ?_, ?_, ?_⟩ <;> rfl

theorem stock_record_lookups (data : PyDict) (now : ℕ)
    (tup : Option String × ℚ × ℚ × ℚ × ℚ) :
    recLookup (stock_record data now tup) "stock" = some (.num tup.2.1) ∧
    recLookup (stock_record data now tup) "available" = some (.num tup.2.2.2.2) := by
  obtain ⟨a, b, c, d, e⟩ := tup
  exact ⟨rfl, rfl⟩

theorem product_record_keys (data : PyDict) (now : ℕ)
    (tup : Val × Val × Val × Option String × Val × Val) :
    (product_record data now tup).map Prod.fst =
      ["external_id", "name", "code", "article", "description",
       "sale_price", "buy_price", "min_price", "weight", "volume",
       "archived", "shared", "external_meta", "last_sync_at",
       "sync_status"] := by
  obtain ⟨a, b, c, d, e, f⟩ := tup
  rfl

theorem counterparty_record_keys (data : PyDict) (now : ℕ)
    (tup : Val × Val × Val × Val × Option String) :
    (counterparty_record data now tup).map Prod.fst =
      ["external_id", "name", "code", "description", "email", "phone",
       "legal_title", "legal_address", "actual_address", "inn", "kpp",
       "ogrn", "okpo", "is_supplier", "is_customer",
       "discount_percentage", "archived", "shared", "external_meta",
       "last_sync_at", "sync_status"] := by
  obtain ⟨a, b, c, d, e⟩ := tup
  rfl

theorem stock_record_keys (data : PyDict) (now : ℕ)
    (tup : Option String × ℚ × ℚ × ℚ × ℚ) :
    (stock_record data now tup).map Prod.fst =
      ["external_id", "stock", "in_transit", "reserve", "available",
       "external_meta", "last_sync_at", "sync_status"] := by
  obtain ⟨a, b, c, d, e⟩ := tup
  rfl

/-! ### Behaviour of the scaled-measurement fields -/

theorem weightField_zero {data : PyDict}
    (h : pyLookup data "weight" = some (.num 0)) :
    weightField data = .ok Val.none := by
  simp [weightField, pyGetD, h, JVal.truthy, pure, Except.pure]

theorem weightField_num {data : PyDict} {w : ℚ}
    (h : pyLookup data "weight" = some (.num w)) (hw : w ≠ 0) :
    weightField data = .ok (Val.num (w / 1000)) := by
  simp [weightField, pyGetD, h, JVal.truthy, hw, pyDivConst, Except.map]

theorem volumeField_zero {data : PyDict}
    (h : pyLookup data "volume" = some (.num 0)) :
    volumeField data = .ok Val.none := by
  simp [volumeField, pyGetD, h, JVal.truthy, pure, Except.pure]

theorem volumeField_num {data : PyDict} {w : ℚ}
    (h : pyLookup data "volume" = some (.num w)) (hw : w ≠ 0) :
    volumeField data = .ok (Val.num (w / 1000000)) := by
  simp [volumeField, pyGetD, h, JVal.truthy, hw, pyDivConst, Except.map]

/-- **C10** — In `map_product`, the scale division for weight and volume
is applied only to truthy raw values: a weight or volume that is present
with raw value `0` maps to `None` rather than `0`, and only non-zero raw
numeric weights/volumes are divided by `1000` resp. `1000000`. -/
theorem c10_zero_weight_volume_map_to_null (data : PyDict) (now : ℕ)
    (h : (map_product data now).isOk = true) :
    (pyLookup data "weight" = some (.num 0) →
      (map_product data now).map (fun m => recLookup m "weight") =
        .ok (some Val.none)) ∧
    (∀ w : ℚ, w ≠ 0 → pyLookup data "weight" = some (.num w) →
      (map_product data now).map (fun m => recLookup m "weight") =
        .ok (some (Val.num (w / 1000)))) ∧
    (pyLookup data "volume" = some (.num 0) →
      (map_product data now).map (fun m => recLookup m "volume") =
        .ok (some Val.none)) ∧
    (∀ w : ℚ, w ≠ 0 → pyLookup data "volume" = some (.num w) →
      (map_product data now).map (fun m => recLookup m "volume") =
        .ok (some (Val.num (w / 1000000)))) := by
  cases hc : map_product_core data with
  | error e => simp [map_product, hc, Except.map, Except.isOk, Except.toBool] at h
  | ok tup =>
    have hfields := (map_product_core_ok_iff data tup).mp hc
    have hlk := product_record_lookups data now tup
    refine ⟨?_, ?_, ?_, ?_⟩
    · intro hw
      have h5 := hfields.2.2.2.2.1
      rw [weightField_zero hw] at h5
      injection h5 with h5'
      simp [map_product, hc, Except.map, hlk.2.2.2.1, h5']
    · intro w hw0 hw
      have h5 := hfields.2.2.2.2.1
      rw [weightField_num hw hw0] at h5
      injection h5 with h5'
      simp [map_product, hc, Except.map, hlk.2.2.2.1, h5']
    · intro hv
      have h6 := hfields.2.2.2.2.2
      rw [volumeField_zero hv] at h6
      injection h6 with h6'
      simp [map_product, hc, Except.map, hlk.2.2.2.2.1, h6']
    · intro w hw0 hv
      have h6 := hfields.2.2.2.2.2
      rw [volumeField_num hv hw0] at h6
      injection h6 with h6'
      simp [map_product, hc, Except.map, hlk.2.2.2.2.1, h6']

/-- Witness for C10 at a concrete record with `weight = 0` and
`volume = 3`. -/
theorem c10_zero_weight_volume_map_to_null_witness :
    (map_product [("weight", JVal.num 0), ("volume", JVal.num 3)] 0).map
        (fun m => recLookup m "weight") = .ok (some Val.none) ∧
    (map_product [("weight", JVal.num 0), ("volume", JVal.num 3)] 0).map
        (fun m => recLookup m "volume") =
      .ok (some (Val.num (3 / 1000000))) := by
  have h := c10_zero_weight_volume_map_to_null
    [("weight", JVal.num 0), ("volume", JVal.num 3)] 0 (by rfl)
  exact ⟨h.1 rfl, h.2.2.2 3 (by norm_num) rfl⟩

/-- **C9 counterexample** — `map_product` stamps
`last_sync_at = datetime.utcnow()`, so two invocations on the same input
at different clock readings produce different output mappings: the claim
that the same input always yields the same output fails on the
`last_sync_at` column. -/
theorem c9_counterexample_timestamp_varies :
    map_product [] 0 ≠ map_product [] 1 := by
  intro h
  have h' := congrArg lastSyncOf h
  have h0 : lastSyncOf (map_product [] 0) = some 0 := rfl
  have h1 : lastSyncOf (map_product [] 1) = some 1 := rfl
  rw [h0, h1] at h'
  simp at h'

/-- **C9 (amended)** — The mapper is deterministic apart from the clock:
for every raw input record, two invocations of `map_product` on the same
input agree on every output column except `last_sync_at`, which carries
the wall-clock reading; there is no other source of nondeterminism and
no other external input. -/
theorem c9_mapper_deterministic_up_to_timestamp (data : PyDict)
    (t₁ t₂ : ℕ) :
    (map_product data t₁).map
        (fun m => m.filter (fun kv => kv.1 ≠ "last_sync_at")) =
      (map_product data t₂).map
        (fun m => m.filter (fun kv => kv.1 ≠ "last_sync_at")) := by
  cases hc : map_product_core data with
  | error e => simp [map_product, hc, Except.map]
  | ok tup =>
    obtain ⟨a, b, c, d, e, f⟩ := tup
    simp [map_product, hc, Except.map, product_record]

/-! ### Behaviour of the price fields -/

theorem salePriceField_first_value {data : PyDict} {fo : PyDict}
    {rest : List JVal} {q : ℚ}
    (h : pyLookup data "salePrices" = some (.arr (.obj fo :: rest)))
    (hv : pyGetD fo "value" (.num 0) = .num q) :
    salePriceField data = .ok (Val.num (q / 100)) := by
  simp [salePriceField, h, JVal.truthy, pyIndex0, jvalGet, hv, pyDivConst,
    except_bind_ok, pure, Except.pure]

theorem salePriceField_none {data : PyDict}
    (h : pyLookup data "salePrices" = Option.none) :
    salePriceField data = .ok Val.none := by
  simp [salePriceField, h, pure, Except.pure]

theorem singlePriceField_none {data : PyDict} {k : String}
    (h : pyLookup data k = Option.none) :
    singlePriceField data k = .ok Val.none := by
  simp [singlePriceField, h, pure, Except.pure]

/-- **C8 counterexample** — A present price object whose `value` is null
reaches `data['buyPrice'].get('value', 0) / 100` in `map_product` with
`None` as the dividend and raises `TypeError` at the division, so the
claim's "a missing or null source value never causes a division error"
fails on the code. -/
theorem c8_counterexample_null_price_value_raises :
    map_product [("buyPrice", JVal.obj [("value", JVal.null)])] 0 =
      .error .typeError := rfl

/-- **C8 (amended)** — The conversions themselves are as claimed: a raw
`salePrices[0].value` of `12500` maps to `125.00` (division by 100) and
a raw value of `0` maps to `0`; a missing price field maps to null and a
missing stock quantity to `0`; weight is divided by 1000 and volume by
1000000; a missing source value, and a null one routed through the fixed
service's `extract_price_value`, yield the default without error.  But
in `map_product` a present price object with a null `value` raises
`TypeError` at the division (see the counterexample), so "never causes a
division error" holds only for missing values and for
`extract_price_value`. -/
theorem c8_unit_conversion (data : PyDict) (now : ℕ)
    (h : (map_product data now).isOk = true) :
    (∀ (q : ℚ) (fo : PyDict) (rest : List JVal),
      pyLookup data "salePrices" = some (.arr (.obj fo :: rest)) →
      pyGetD fo "value" (.num 0) = .num q →
      (map_product data now).map (fun m => recLookup m "sale_price") =
        .ok (some (Val.num (q / 100)))) ∧
    (pyLookup data "salePrices" = Option.none →
      (map_product data now).map (fun m => recLookup m "sale_price") =
        .ok (some Val.none)) ∧
    (pyLookup data "buyPrice" = Option.none →
      (map_product data now).map (fun m => recLookup m "buy_price") =
        .ok (some Val.none)) ∧
    (∀ w : ℚ, w ≠ 0 → pyLookup data "weight" = some (.num w) →
      (map_product data now).map (fun m => recLookup m "weight") =
        .ok (some (Val.num (w / 1000)))) ∧
    (∀ w : ℚ, w ≠ 0 → pyLookup data "volume" = some (.num w) →
      (map_product data now).map (fun m => recLookup m "volume") =
        .ok (some (Val.num (w / 1000000)))) ∧
    (∀ data' : PyDict, ∀ now' : ℕ,
      (map_stock data' now').isOk = true →
      pyLookup data' "stock" = Option.none →
      (map_stock data' now').map (fun m => recLookup m "stock") =
        .ok (some (Val.num 0))) ∧
    (∀ d : ℚ, extract_price_value .null d = .ok d) ∧
    (∀ d : ℚ, extract_price_value (.obj []) d = .ok d) ∧
    (∀ d : ℚ, extract_price_value (.obj [("value", .null)]) d = .ok d) ∧
    (∀ q : ℚ, q ≠ 0 → ∀ d : ℚ,
      extract_price_value (.num q) d = .ok (q / 100)) ∧
    (∀ d : ℚ, extract_price_value (.num 0) d = .ok d) := by
  cases hc : map_product_core data with
  | error e => simp [map_product, hc, Except.map, Except.isOk, Except.toBool] at h
  | ok tup =>
    have hfields := (map_product_core_ok_iff data tup).mp hc
    have hlk := product_record_lookups data now tup
    refine ⟨?_, ?_, ?_, ?_, ?_, ?_, ?_, ?_, ?_, ?_, ?_⟩
    · intro q fo rest hsp hv
      have h1 := hfields.1
      rw [salePriceField_first_value hsp hv] at h1
      injection h1 with h1'
      simp [map_product, hc, Except.map, hlk.1, h1']
    · intro hsp
      have h1 := hfields.1
      rw [salePriceField_none hsp] at h1
      injection h1 with h1'
      simp [map_product, hc, Except.map, hlk.1, h1']
    · intro hbp
      have h2 := hfields.2.1
      rw [singlePriceField_none hbp] at h2
      injection h2 with h2'
      simp [map_product, hc, Except.map, hlk.2.1, h2']
    · intro w hw0 hw
      have h5 := hfields.2.2.2.2.1
      rw [weightField_num hw hw0] at h5
      injection h5 with h5'
      simp [map_product, hc, Except.map, hlk.2.2.2.1, h5']
    · intro w hw0 hv
      have h6 := hfields.2.2.2.2.2
      rw [volumeField_num hv hw0] at h6
      injection h6 with h6'
      simp [map_product, hc, Except.map, hlk.2.2.2.2.1, h6']
    · intro data' now' h' hst
      cases hcs : map_stock_core data' with
      | error e =>
        simp [map_stock, hcs, Except.map, Except.isOk, Except.toBool] at h'
      | ok tups =>
        have hsf := (map_stock_core_ok_iff data' tups).mp hcs
        have hq := hsf.2.1
        have hq0 : stockQtyField data' "stock" = .ok 0 := by
          simp [stockQtyField, pyGetD, hst, pyDivConst]
        rw [hq0] at hq
        injection hq with hq'
        have hlks := stock_record_lookups data' now' tups
        simp [map_stock, hcs, Except.map, hlks.1, ← hq']
    · intro d; rfl
    · intro d; rfl
    · intro d; rfl
    · intro q hq d
      simp [extract_price_value, JVal.truthy, hq]
    · intro d; rfl

/-- Witness for C8 at a concrete record with
`salePrices = [{"value": 12500}]`, no `buyPrice`, `weight = 2000`. -/
theorem c8_unit_conversion_witness :
    (map_product [("salePrices", JVal.arr [.obj [("value", JVal.num 12500)]]),
        ("weight", JVal.num 2000)] 0).map
        (fun m => recLookup m "sale_price") =
      .ok (some (Val.num (12500 / 100))) ∧
    (12500 : ℚ) / 100 = 125 ∧
    (map_product [("salePrices", JVal.arr [.obj [("value", JVal.num 12500)]]),
        ("weight", JVal.num 2000)] 0).map
        (fun m => recLookup m "buy_price") = .ok (some Val.none) ∧
    (map_stock [("meta", JVal.obj [("href", JVal.str "x/S1")])] 0).map
        (fun m => recLookup m "stock") = .ok (some (Val.num 0)) ∧
    extract_price_value .null 0 = .ok 0 := by
  have h := c8_unit_conversion
    [("salePrices", JVal.arr [.obj [("value", JVal.num 12500)]]),
     ("weight", JVal.num 2000)] 0 (by rfl)
  refine ⟨h.1 12500 [("value", JVal.num 12500)] [] rfl rfl, by norm_num,
    h.2.2.1 rfl,
    h.2.2.2.2.2.1 [("meta", JVal.obj [("href", JVal.str "x/S1")])] 0
      (by rfl) rfl,
    h.2.2.2.2.2.2.1 0⟩

/-! ### Totality of the mapper under well-shaped nested fields -/

theorem extract_id_from_meta_obj_total (fields : PyDict) :
    ∃ x, extract_id_from_meta (.obj fields) = .ok x := by
  by_cases ht : (JVal.obj fields).truthy
  · cases hk : pyLookup fields "href" with
    | none =>
      exact ⟨Option.none, by
        simp [extract_id_from_meta, ht, pyContains, pyHasKey, hk,
          except_bind_ok, pure, Except.pure]⟩
    | some v =>
      cases hs : pySplitLastSlash v with
      | error e =>
        exact ⟨Option.none, by
          simp [extract_id_from_meta, ht, pyContains, pyHasKey, hk,
            pyGetItem, hs, except_bind_ok, pure, Except.pure]⟩
      | ok s =>
        exact ⟨some s, by
          simp [extract_id_from_meta, ht, pyContains, pyHasKey, hk,
            pyGetItem, hs, except_bind_ok, pure, Except.pure]⟩
  · exact ⟨Option.none, by simp [extract_id_from_meta, ht]⟩

theorem extract_id_ok_of_metaOk {d : PyDict} (h : metaOk d = true) :
    ∃ x, extract_id_from_meta (pyGetD d "meta" .null) = .ok x := by
  unfold metaOk at h
  cases hc : pyLookup d "meta" with
  | none =>
    exact ⟨Option.none, by
      simp [pyGetD, hc, extract_id_from_meta, JVal.truthy]⟩
  | some v =>
    rw [hc] at h
    have hg : pyGetD d "meta" .null = v := by simp [pyGetD, hc]
    rw [hg]
    by_cases ht : v.truthy
    · simp [ht] at h
      cases v with
      | obj fields => exact extract_id_from_meta_obj_total fields
      | null => simp at h
      | bool b => simp at h
      | num q => simp at h
      | str s => simp at h
      | arr l => simp at h
    · exact ⟨Option.none, by simp [extract_id_from_meta, ht]⟩

theorem contactField_ok_of_contactsOk {d : PyDict}
    (h : contactsOk d = true) : ∃ x, contactField d = .ok x := by
  unfold contactsOk at h
  cases hc : pyLookup d "contactpersons" with
  | none =>
    exact ⟨(Val.none, Val.none), by
      simp [contactField, hc, pure, Except.pure]⟩
  | some v =>
    rw [hc] at h
    by_cases ht : v.truthy
    · simp [ht] at h
      cases v with
      | arr l =>
        cases l with
        | nil => simp [JVal.truthy] at ht
        | cons x rest =>
          cases x with
          | obj fo =>
            exact ⟨(Val.raw (pyGetD fo "email" .null),
                Val.raw (pyGetD fo "phone" .null)), by
              simp [contactField, hc, ht, pyIndex0, jvalGet,
                except_bind_ok, pure, Except.pure]⟩
          | null => simp at h
          | bool b => simp at h
          | num q => simp at h
          | str s => simp at h
          | arr l2 => simp at h
      | null => simp at h
      | bool b => simp at h
      | num q => simp at h
      | str s => simp at h
      | obj fo => simp at h
    · exact ⟨(Val.none, Val.none), by
        simp [contactField, hc, ht, pure, Except.pure]⟩

theorem addressField_ok_of_nestedObjOk {d : PyDict} {k : String}
    (h : nestedObjOk d k = true) : ∃ x, addressField d k = .ok x := by
  unfold nestedObjOk at h
  cases hc : pyLookup d k with
  | none => exact ⟨Val.none, by simp [addressField, hc, pure, Except.pure]⟩
  | some v =>
    rw [hc] at h
    cases v with
    | obj fo =>
      exact ⟨Val.raw (pyGetD fo "addInfo" .null), by
        simp [addressField, hc, jvalGet, Except.map]⟩
    | null => simp at h
    | bool b => simp at h
    | num q => simp at h
    | str s => simp at h
    | arr l => simp at h

theorem stockQtyField_ok_of_qtyOk {d : PyDict} {k : String}
    (h : qtyOk d k = true) : ∃ x, stockQtyField d k = .ok x := by
  unfold qtyOk at h
  cases hc : pyLookup d k with
  | none =>
    exact ⟨0 / 1000, by simp [stockQtyField, pyGetD, hc, pyDivConst]⟩
  | some v =>
    rw [hc] at h
    cases v with
    | num q =>
      exact ⟨q / 1000, by simp [stockQtyField, pyGetD, hc, pyDivConst]⟩
    | bool b =>
      exact ⟨(if b then 1 else 0) / 1000, by
        simp [stockQtyField, pyGetD, hc, pyDivConst]⟩
    | null => simp at h
    | str s => simp at h
    | arr l => simp at h
    | obj fo => simp at h

/-- **C7 counterexample** — The mapper is not total on malformed input:
a counterparty record whose `legalAddress` key is present with a null
value reaches `data['legalAddress'].get('addInfo')` and raises
`AttributeError`, because the `if 'legalAddress' in data` guard checks
presence but not shape. -/
theorem c7_counterexample_null_nested_object_raises :
    map_counterparty [("legalAddress", JVal.null)] 0 =
      .error .attributeError := rfl

/-- **C7 (amended)** — The mapper is total on records whose optional
fields are merely *missing*, and more generally whenever each nested
field that is present is well shaped (`contactpersons` a list of dicts
when truthy, the address objects dicts, `meta` a dict when truthy, the
stock quantities numeric): then `map_counterparty` and `map_stock`
return a complete field mapping with default values and do not raise.
A nested object that is present but null (or otherwise mis-shaped)
does raise — see the counterexample. -/
theorem c7_mapper_total_on_missing_fields (d₁ d₂ : PyDict) (now : ℕ)
    (h1 : contactsOk d₁ = true) (h2 : nestedObjOk d₁ "legalAddress" = true)
    (h3 : nestedObjOk d₁ "actualAddress" = true) (h4 : metaOk d₁ = true)
    (h5 : metaOk d₂ = true) (h6 : qtyOk d₂ "stock" = true)
    (h7 : qtyOk d₂ "inTransit" = true) (h8 : qtyOk d₂ "reserve" = true)
    (h9 : qtyOk d₂ "quantity" = true) :
    (∃ m, map_counterparty d₁ now = .ok m ∧
      m.map Prod.fst =
        ["external_id", "name", "code", "description", "email", "phone",
         "legal_title", "legal_address", "actual_address", "inn", "kpp",
         "ogrn", "okpo", "is_supplier", "is_customer",
         "discount_percentage", "archived", "shared", "external_meta",
         "last_sync_at", "sync_status"]) ∧
    (∃ m, map_stock d₂ now = .ok m ∧
      m.map Prod.fst =
        ["external_id", "stock", "in_transit", "reserve", "available",
         "external_meta", "last_sync_at", "sync_status"]) := by
  obtain ⟨ep, hep⟩ := contactField_ok_of_contactsOk h1
  obtain ⟨la, hla⟩ := addressField_ok_of_nestedObjOk h2
  obtain ⟨aa, haa⟩ := addressField_ok_of_nestedObjOk h3
  obtain ⟨eid, heid⟩ := extract_id_ok_of_metaOk h4
  obtain ⟨eid2, heid2⟩ := extract_id_ok_of_metaOk h5
  obtain ⟨q1, hq1⟩ := stockQtyField_ok_of_qtyOk h6
  obtain ⟨q2, hq2⟩ := stockQtyField_ok_of_qtyOk h7
  obtain ⟨q3, hq3⟩ := stockQtyField_ok_of_qtyOk h8
  obtain ⟨q4, hq4⟩ := stockQtyField_ok_of_qtyOk h9
  constructor
  · have hcore : map_counterparty_core d₁ = .ok (ep.1, ep.2, la, aa, eid) :=
      (map_counterparty_core_ok_iff d₁ (ep.1, ep.2, la, aa, eid)).mpr
        ⟨by simpa using hep, hla, haa, heid⟩
    exact ⟨counterparty_record d₁ now (ep.1, ep.2, la, aa, eid),
      by simp [map_counterparty, hcore, Except.map],
      counterparty_record_keys d₁ now _⟩
  · have hcore : map_stock_core d₂ = .ok (eid2, q1, q2, q3, q4) :=
      (map_stock_core_ok_iff d₂ (eid2, q1, q2, q3, q4)).mpr
        ⟨heid2, hq1, hq2, hq3, hq4⟩
    exact ⟨stock_record d₂ now (eid2, q1, q2, q3, q4),
      by simp [map_stock, hcore, Except.map],
      stock_record_keys d₂ now _⟩

/-- Witness for C7 at concrete records with only missing optional
fields. -/
theorem c7_mapper_total_on_missing_fields_witness :
    (∃ m, map_counterparty [("name", JVal.str "Acme")] 5 = .ok m ∧
      m.map Prod.fst =
        ["external_id", "name", "code", "description", "email", "phone",
         "legal_title", "legal_address", "actual_address", "inn", "kpp",
         "ogrn", "okpo", "is_supplier", "is_customer",
         "discount_percentage", "archived", "shared", "external_meta",
         "last_sync_at", "sync_status"]) ∧
    (∃ m, map_stock [] 5 = .ok m ∧
      m.map Prod.fst =
        ["external_id", "stock", "in_transit", "reserve", "available",
         "external_meta", "last_sync_at", "sync_status"]) :=
  c7_mapper_total_on_missing_fields [("name", JVal.str "Acme")] [] 5
    rfl rfl rfl rfl rfl rfl rfl rfl rfl

/-! ### Pagination (`get_paginated`) -/

theorem chain'_concat_of {α : Type} {R : α → α → Prop} {l : List α}
    {a b : α} (h : List.Chain' R (l ++ [a])) (hab : R a b) :
    List.Chain' R ((l ++ [a]) ++ [b]) := by
  rw [List.chain'_append]
  refine ⟨h, List.chain'_singleton _, ?_⟩
  intro x hx y hy
  simp only [List.head?_cons, Option.mem_def, Option.some.injEq] at hy
  have hl : (l ++ [a]).getLast? = some a := by simp
  rw [hl] at hx
  simp only [Option.mem_def, Option.some.injEq] at hx
  subst hx
  subst hy
  exact hab

theorem iterate_len_inv {rows : JVal} {items : List JVal} {n : ℕ}
    (hi : (do
        let items ← pyIterate rows
        let n ← pyLen rows
        pure (items, n) : Except PyError (List JVal × ℕ)) = .ok (items, n)) :
    pyIterate rows = .ok items ∧ pyLen rows = .ok n := by
  cases hit : pyIterate rows with
  | error e => rw [hit] at hi; simp [except_bind_error] at hi
  | ok its =>
    rw [hit] at hi
    cases hlen : pyLen rows with
    | error e =>
      rw [hlen] at hi
      simp [except_bind_ok, except_bind_error] at hi
    | ok m =>
      rw [hlen] at hi
      simp only [except_bind_ok, pure, Except.pure, Except.ok.injEq,
        Prod.mk.injEq] at hi
      exact ⟨by rw [hi.1], by rw [hi.2]⟩

theorem get_paginated_loop_chain (fetch : ℕ → ℕ → Except PyError JVal)
    (limit : ℕ) :
    ∀ (fuel off : ℕ) (offs : List ℕ) (acc : List JVal),
      List.Chain' (pageAdvance fetch limit) (offs ++ [off]) →
      List.Chain' (pageAdvance fetch limit)
        (get_paginated_loop fetch limit off offs acc fuel).1 := by
  intro fuel
  induction fuel with
  | zero =>
    intro off offs acc h
    exact h.prefix ⟨[off], rfl⟩
  | succ k ih =>
    intro off offs acc h
    rw [get_paginated_loop]
    cases hr : (do
        let resp ← fetch off limit
        jvalGet resp "rows" (.arr []) : Except PyError JVal) with
    | error e => simpa using h
    | ok rows =>
      cases ht : rows.truthy with
      | false => simpa [ht] using h
      | true =>
        simp only [ht, Bool.not_true, Bool.false_eq_true, if_false]
        cases hi : (do
            let items ← pyIterate rows
            let n ← pyLen rows
            pure (items, n) : Except PyError (List JVal × ℕ)) with
        | error e => simpa using h
        | ok p =>
          obtain ⟨items, n⟩ := p
          by_cases hn : n < limit
          · simpa [hn] using h
          · simp only [hn, if_false]
            apply ih
            exact chain'_concat_of h
              ⟨rows, n, hr, (iterate_len_inv hi).2, rfl⟩

theorem get_paginated_loop_full_step (fetch : ℕ → ℕ → Except PyError JVal)
    {limit k off : ℕ} {offs : List ℕ} {acc rows : List JVal}
    (h : fetch off limit = .ok (.obj [("rows", .arr rows)]))
    (hlen : rows.length = limit) (hl : 0 < limit) :
    get_paginated_loop fetch limit off offs acc (k + 1) =
      get_paginated_loop fetch limit (off + limit) (offs ++ [off])
        (acc ++ rows) k := by
  cases rows with
  | nil => rw [← hlen] at hl; simp at hl
  | cons r rs =>
    rw [get_paginated_loop]
    have hro : (do
        let resp ← fetch off limit
        jvalGet resp "rows" (.arr []) : Except PyError JVal) =
        .ok (.arr (r :: rs)) := by
      rw [h, except_bind_ok]
      simp [jvalGet, pyGetD, pyLookup, List.find?]
    rw [hro]
    have hit : (do
        let items ← pyIterate (JVal.arr (r :: rs))
        let n ← pyLen (JVal.arr (r :: rs))
        pure (items, n) : Except PyError (List JVal × ℕ)) =
        .ok (r :: rs, (r :: rs).length) := rfl
    simp only [JVal.truthy, List.isEmpty_cons, Bool.not_false,
      Bool.false_eq_true, if_false, hit, if_true, hlen, lt_irrefl]
    simp

theorem get_paginated_loop_short_step (fetch : ℕ → ℕ → Except PyError JVal)
    {limit k off : ℕ} {offs : List ℕ} {acc rows : List JVal}
    (h : fetch off limit = .ok (.obj [("rows", .arr rows)]))
    (hlen : rows.length < limit) :
    get_paginated_loop fetch limit off offs acc (k + 1) =
      (offs ++ [off], acc ++ rows) := by
  rw [get_paginated_loop]
  have hro : (do
      let resp ← fetch off limit
      jvalGet resp "rows" (.arr []) : Except PyError JVal) =
      .ok (.arr rows) := by
    rw [h, except_bind_ok]
    simp [jvalGet, pyGetD, pyLookup, List.find?]
  rw [hro]
  cases rows with
  | nil => simp [JVal.truthy]
  | cons r rs =>
    have hit : (do
        let items ← pyIterate (JVal.arr (r :: rs))
        let n ← pyLen (JVal.arr (r :: rs))
        pure (items, n) : Except PyError (List JVal × ℕ)) =
        .ok (r :: rs, (r :: rs).length) := rfl
    simp only [JVal.truthy, List.isEmpty_cons, Bool.not_false,
      Bool.false_eq_true, if_false, hit, hlen, if_true]
    simp

theorem get_paginated_loop_error_step (fetch : ℕ → ℕ → Except PyError JVal)
    {limit k off : ℕ} {offs : List ℕ} {acc : List JVal} {e : PyError}
    (h : fetch off limit = .error e) :
    get_paginated_loop fetch limit off offs acc (k + 1) =
      (offs ++ [off], acc) := by
  rw [get_paginated_loop]
  have hro : (do
      let resp ← fetch off limit
      jvalGet resp "rows" (.arr []) : Except PyError JVal) = .error e := by
    rw [h, except_bind_error]
  rw [hro]

/-- **C5** — `fetchAll` pagination terminates correctly.
(i) Scenario: a remote that returns exactly `limit` rows on page 1 and 0
rows on page 2 makes `get_paginated` request exactly the offsets `0` and
`limit` (the offset advanced by the number of rows page 1 returned),
stop after page 2, and yield only page 1's rows.
(ii) A page with fewer rows than the requested limit ends the iteration
after that page.
(iii) Generally, along the trace of requested offsets every consecutive
pair differs by exactly the number of rows the earlier page returned. -/
theorem c5_pagination_stops_and_advances_by_rows :
    (∀ (fetch : ℕ → ℕ → Except PyError JVal) (limit fuel : ℕ)
       (rows1 : List JVal), 0 < limit → 2 ≤ fuel →
       fetch 0 limit = .ok (.obj [("rows", .arr rows1)]) →
       rows1.length = limit →
       fetch limit limit = .ok (.obj [("rows", .arr [])]) →
       get_paginated fetch false limit fuel = ([0, limit], rows1)) ∧
    (∀ (fetch : ℕ → ℕ → Except PyError JVal) (limit fuel : ℕ)
       (rows1 : List JVal), 1 ≤ fuel →
       fetch 0 limit = .ok (.obj [("rows", .arr rows1)]) →
       rows1.length < limit →
       get_paginated fetch false limit fuel = ([0], rows1)) ∧
    (∀ (fetch : ℕ → ℕ → Except PyError JVal) (hasExpand : Bool)
       (limit fuel : ℕ),
       List.Chain'
         (pageAdvance fetch (if hasExpand then min limit 100 else limit))
         (get_paginated fetch hasExpand limit fuel).1) := by
  refine ⟨?_, ?_, ?_⟩
  · intro fetch limit fuel rows1 hl hf h1 hlen h2
    obtain ⟨k, rfl⟩ : ∃ k, fuel = k + 2 := ⟨fuel - 2, by omega⟩
    show get_paginated_loop fetch limit 0 [] [] (k + 1 + 1) = _
    rw [get_paginated_loop_full_step fetch h1 hlen hl]
    rw [show (0 + limit) = limit from by omega]
    rw [get_paginated_loop_short_step fetch h2
      (by simp only [List.length_nil]; exact hl)]
    simp
  · intro fetch limit fuel rows1 hf h1 hlen
    obtain ⟨k, rfl⟩ : ∃ k, fuel = k + 1 := ⟨fuel - 1, by omega⟩
    show get_paginated_loop fetch limit 0 [] [] (k + 1) = _
    rw [get_paginated_loop_short_step fetch h1 hlen]
    simp
  · intro fetch hasExpand limit fuel
    exact get_paginated_loop_chain fetch _ fuel 0 [] []
      (by simp only [List.nil_append]; exact List.chain'_singleton 0)

/-- Witness for C5: a remote with a full page of 2 rows at offset 0 and
an empty page at offset 2, `limit = 2`. -/
theorem c5_pagination_stops_and_advances_by_rows_witness :
    get_paginated
      (fun off _ =>
        if off = 0 then .ok (.obj [("rows", .arr [.str "a", .str "b"])])
        else .ok (.obj [("rows", .arr [])]))
      false 2 2 = ([0, 2], [.str "a", .str "b"]) :=
  c5_pagination_stops_and_advances_by_rows.1
    (fun off _ =>
      if off = 0 then .ok (.obj [("rows", .arr [.str "a", .str "b"])])
      else .ok (.obj [("rows", .arr [])]))
    2 2 [.str "a", .str "b"] (by norm_num) (by norm_num) rfl rfl rfl

/-- **C6 counterexample** — A remote whose second page answers HTTP 500:
`_make_request` raises the project's `IntegrationError` for the non-2xx,
non-auth status, but `get_paginated` catches it (`except Exception: …
break`) and silently returns the partial result of page 1, so the error
is *not* surfaced to the caller. -/
theorem c6_counterexample_partial_rows_returned :
    c6remote 2 2 = .error (.integrationError 500) ∧
    get_paginated c6remote false 2 10 = ([0, 2], [.str "a", .str "b"]) :=
  ⟨rfl, rfl⟩

/-- **C6 (amended)** — A non-2xx, non-auth remote response during a
paginated fetch aborts the fetch at that page with no page-level retry,
but the raised `RemoteApiError`-style `IntegrationError` is swallowed by
`get_paginated`'s catch-all handler: the rows accumulated before the
failing page are returned as a normal (partial) result and no error
reaches the caller. -/
theorem c6_api_error_aborts_but_is_swallowed
    (fetch : ℕ → ℕ → Except PyError JVal) (limit fuel : ℕ)
    (rows1 : List JVal) (e : PyError) (hl : 0 < limit) (hf : 2 ≤ fuel)
    (h1 : fetch 0 limit = .ok (.obj [("rows", .arr rows1)]))
    (hlen : rows1.length = limit)
    (h2 : fetch limit limit = .error e) :
    get_paginated fetch false limit fuel = ([0, limit], rows1) := by
  obtain ⟨k, rfl⟩ : ∃ k, fuel = k + 2 := ⟨fuel - 2, by omega⟩
  show get_paginated_loop fetch limit 0 [] [] (k + 1 + 1) = _
  rw [get_paginated_loop_full_step fetch h1 hlen hl]
  rw [show (0 + limit) = limit from by omega]
  rw [get_paginated_loop_error_step fetch h2]
  simp

/-- Witness for the amended C6 at the concrete remote `c6remote`. -/
theorem c6_api_error_aborts_but_is_swallowed_witness :
    get_paginated c6remote false 2 2 = ([0, 2], [.str "a", .str "b"]) :=
  c6_api_error_aborts_but_is_swallowed c6remote 2 2
    [.str "a", .str "b"] (.integrationError 500) (by norm_num)
    (by norm_num) rfl rfl rfl

/-! ### The idempotent upsert (C1) -/

theorem applyProductUpdate_external_id (r : ProductRow) (v : ProductValues)
    (n : ℕ) : (applyProductUpdate r v n).external_id = r.external_id := rfl

theorem upsert_product_update_arm (t : ProductTable) (v : ProductValues)
    (n : ℕ)
    (h : t.rows.any (fun r => r.external_id == v.external_id) = true) :
    (upsert_product t v n).1.rows =
      t.rows.map (fun r =>
        if r.external_id == v.external_id then applyProductUpdate r v n
        else r) := by
  unfold upsert_product
  rw [h]
  simp

theorem upsert_product_insert_arm (t : ProductTable) (v : ProductValues)
    (n : ℕ)
    (h : t.rows.any (fun r => r.external_id == v.external_id) = false) :
    (upsert_product t v n).1.rows =
      t.rows ++ [insertProductRow t.nextId v n] := by
  unfold upsert_product
  rw [h]
  simp

/-- The external-id column of the table after an upsert: unchanged on
the conflict-update arm, extended by the new id on the insert arm. -/
theorem upsert_product_ext_map (t : ProductTable) (v : ProductValues)
    (n : ℕ) :
    (upsert_product t v n).1.rows.map (fun r => r.external_id) =
      (if t.rows.any (fun r => r.external_id == v.external_id) then
        t.rows.map (fun r => r.external_id)
      else t.rows.map (fun r => r.external_id) ++ [v.external_id]) := by
  by_cases h : t.rows.any (fun r => r.external_id == v.external_id)
  · rw [upsert_product_update_arm t v n h]
    simp only [h, if_true, List.map_map]
    congr 1
    funext r
    by_cases he : r.external_id == v.external_id <;>
      simp [Function.comp, he, applyProductUpdate_external_id]
  · rw [upsert_product_insert_arm t v n (by simpa using h)]
    simp [h, insertProductRow]

theorem upsert_product_mem (t : ProductTable) (v : ProductValues) (n : ℕ) :
    v.external_id ∈
      (upsert_product t v n).1.rows.map (fun r => r.external_id) := by
  rw [upsert_product_ext_map]
  by_cases h : t.rows.any (fun r => r.external_id == v.external_id)
  · simp only [h, if_true]
    rw [List.any_eq_true] at h
    obtain ⟨r, hr, he⟩ := h
    rw [beq_iff_eq] at he
    exact he ▸ List.mem_map_of_mem (fun r => r.external_id) hr
  · simp [h]

/-- **C1** — The upsert is idempotent and keyed on the external
identifier.  For a table whose external ids are unique (the invariant
the `external_id` unique index enforces): if no row carries the mapped
record's external id the upsert appends exactly the freshly inserted
row; if one does, the upsert rewrites the table in place, updating the
matching row's mutable columns (`applyProductUpdate` preserves the
surrogate id and the resolved reference columns) without changing the
row count; and running the same record through the upsert twice leaves
exactly one stored row with that external id, the second call taking the
update arm rather than duplicating. -/
theorem c1_upsert_idempotent_keyed_on_external_id
    (t : ProductTable) (v : ProductValues) (n₁ n₂ : ℕ)
    (hu : (t.rows.map (fun r => r.external_id)).Nodup) :
    ((∀ r ∈ t.rows, r.external_id ≠ v.external_id) →
      (upsert_product t v n₁).1.rows =
        t.rows ++ [insertProductRow t.nextId v n₁]) ∧
    ((∃ r ∈ t.rows, r.external_id = v.external_id) →
      (upsert_product t v n₁).1.rows =
        t.rows.map (fun r =>
          if r.external_id == v.external_id then applyProductUpdate r v n₁
          else r) ∧
      (upsert_product t v n₁).1.rows.length = t.rows.length) ∧
    ((upsert_product (upsert_product t v n₁).1 v n₂).1.rows.countP
        (fun r => r.external_id == v.external_id) = 1 ∧
      (upsert_product (upsert_product t v n₁).1 v n₂).1.rows.length =
        (upsert_product t v n₁).1.rows.length) := by
  have hcomp : ∀ m : ℕ, ((fun r => r.external_id == v.external_id) ∘
      (fun r => if r.external_id == v.external_id then
        applyProductUpdate r v m else r)) =
      (fun r => r.external_id == v.external_id) := by
    intro m
    funext r
    by_cases he : r.external_id == v.external_id <;>
      simp [Function.comp, he, applyProductUpdate_external_id]
  have hcount1 : (upsert_product t v n₁).1.rows.countP
      (fun r => r.external_id == v.external_id) = 1 := by
    have hpc : (upsert_product t v n₁).1.rows.countP
        (fun r => r.external_id == v.external_id) =
        ((upsert_product t v n₁).1.rows.map
          (fun r => r.external_id)).count v.external_id := by
      rw [List.count_eq_countP, List.countP_map]
      rfl
    rw [hpc, upsert_product_ext_map]
    by_cases h : t.rows.any (fun r => r.external_id == v.external_id)
    · simp only [h, if_true]
      rw [List.any_eq_true] at h
      obtain ⟨r, hr, he⟩ := h
      rw [beq_iff_eq] at he
      exact List.count_eq_one_of_mem hu
        (he ▸ List.mem_map_of_mem (fun r => r.external_id) hr)
    · simp only [h, Bool.false_eq_true, if_false]
      rw [List.count_append]
      have h0 : (t.rows.map (fun r => r.external_id)).count
          v.external_id = 0 := by
        rw [List.count_eq_zero]
        intro hmem
        rw [List.mem_map] at hmem
        obtain ⟨r, hr, he⟩ := hmem
        rw [Bool.not_eq_true, List.any_eq_false] at h
        exact (by simpa using h r hr : r.external_id ≠ v.external_id) he
      simp [h0]
  have hmem1 : (upsert_product t v n₁).1.rows.any
      (fun r => r.external_id == v.external_id) = true := by
    rw [List.any_eq_true]
    have hm := upsert_product_mem t v n₁
    rw [List.mem_map] at hm
    obtain ⟨r, hr, he⟩ := hm
    exact ⟨r, hr, by simp [he]⟩
  refine ⟨?_, ?_, ?_, ?_⟩
  · intro h
    refine upsert_product_insert_arm t v n₁ ?_
    rw [List.any_eq_false]
    intro r hr
    simpa using h r hr
  · intro h
    obtain ⟨r, hr, he⟩ := h
    have hy : t.rows.any (fun r => r.external_id == v.external_id) =
        true := by
      rw [List.any_eq_true]
      exact ⟨r, hr, by simp [he]⟩
    refine ⟨upsert_product_update_arm t v n₁ hy, ?_⟩
    rw [upsert_product_update_arm t v n₁ hy, List.length_map]
  · rw [upsert_product_update_arm _ v n₂ hmem1, List.countP_map, hcomp n₂]
    exact hcount1
  · rw [upsert_product_update_arm _ v n₂ hmem1, List.length_map]

/-- Witness for C1: upserting one mapped record twice into the empty
table leaves exactly one row. -/
theorem c1_upsert_idempotent_keyed_on_external_id_witness :
    ((upsert_product
        (upsert_product ⟨[], 1⟩ c1values 3).1 c1values 4).1.rows.countP
      (fun r => r.external_id == "P1") = 1) ∧
    ((upsert_product
        (upsert_product ⟨[], 1⟩ c1values 3).1 c1values 4).1.rows.length =
      (upsert_product ⟨[], 1⟩ c1values 3).1.rows.length) :=
  (c1_upsert_idempotent_keyed_on_external_id ⟨[], 1⟩ c1values 3 4
    (by simp)).2.2

/-! ### The Reference Resolver (C2) -/

theorem find?_folder_ext_unique {folders : List FolderRow} {f : FolderRow}
    (hu : (folders.map (fun x => x.external_id)).Nodup)
    (hf : f ∈ folders) :
    folders.find? (fun x => x.external_id == f.external_id) = some f := by
  induction folders with
  | nil => cases hf
  | cons g gs ih =>
    rw [List.map_cons, List.nodup_cons] at hu
    by_cases hg : g.external_id == f.external_id
    · rcases List.mem_cons.mp hf with rfl | hmem
      · exact List.find?_cons_of_pos _ (by simp)
      · exfalso
        rw [beq_iff_eq] at hg
        exact hu.1 (hg ▸ List.mem_map_of_mem (fun x => x.external_id) hmem)
    · rcases List.mem_cons.mp hf with rfl | hmem
      · simp at hg
      · rw [List.find?_cons_of_neg _ (by simpa using hg)]
        exact ih hu.2 hmem

theorem resolve_row_skips_resolved {folders : List FolderRow}
    {p : ProductRow} (h : p.folder_id.isSome = true) :
    resolve_product_folder_row folders p = p := by
  unfold resolve_product_folder_row
  rw [if_pos h]

theorem resolve_row_matched {folders : List FolderRow} {f : FolderRow}
    {p : ProductRow}
    (hu : (folders.map (fun x => x.external_id)).Nodup)
    (hnull : p.folder_id = Option.none)
    (hpend : p.folder_external_id = some f.external_id)
    (hf : f ∈ folders) :
    resolve_product_folder_row folders p =
      { p with folder_id := some f.id } := by
  unfold resolve_product_folder_row
  rw [hnull, hpend]
  simp [find?_folder_ext_unique hu hf]

theorem resolve_row_unmatched {folders : List FolderRow} {p : ProductRow}
    (hnull : p.folder_id = Option.none)
    (hnomatch : ∀ f, f ∈ folders →
      p.folder_external_id ≠ some f.external_id) :
    resolve_product_folder_row folders p = p := by
  unfold resolve_product_folder_row
  rw [hnull]
  cases hpend : p.folder_external_id with
  | none => rfl
  | some ext =>
    have hfind : folders.find? (fun f => f.external_id == ext) =
        Option.none := by
      rw [List.find?_eq_none]
      intro f hf hbeq
      rw [beq_iff_eq] at hbeq
      exact hnomatch f hf (by rw [hpend, hbeq])
    simp [hfind]

theorem resolve_row_idem (folders : List FolderRow) (p : ProductRow) :
    resolve_product_folder_row folders (resolve_product_folder_row
      folders p) = resolve_product_folder_row folders p := by
  by_cases hres : p.folder_id.isSome
  · rw [resolve_row_skips_resolved hres, resolve_row_skips_resolved hres]
  · have hres : p.folder_id = Option.none := by
      cases h2 : p.folder_id with
      | none => rfl
      | some x => rw [h2] at hres; simp at hres
    cases hpend : p.folder_external_id with
    | none =>
      have hstep : resolve_product_folder_row folders p = p := by
        unfold resolve_product_folder_row
        simp [hres, hpend]
      rw [hstep, hstep]
    | some ext =>
      cases hfind : folders.find? (fun f => f.external_id == ext) with
      | none =>
        have hstep : resolve_product_folder_row folders p = p := by
          unfold resolve_product_folder_row
          simp [hres, hpend, hfind]
        rw [hstep, hstep]
      | some f =>
        have hstep : resolve_product_folder_row folders p =
            { p with folder_id := some f.id } := by
          unfold resolve_product_folder_row
          simp [hres, hpend, hfind]
        rw [hstep]
        unfold resolve_product_folder_row
        simp

/-- **C2** — The Reference Resolver converges and is idempotent, shown
for the product→folder pair (the first `UPDATE` of
`update_foreign_key_relationships`; the other five statements have the
identical relational shape).  With folder external ids unique: the
update touches no row whose resolved column is already non-null; a row
with a null resolved column and a pending reference equal to some
folder's external id gets that folder's surrogate id; a row matching no
folder keeps a null resolved column, with no error; and running the
resolver a second time changes nothing. -/
theorem c2_resolver_convergence_and_idempotence
    (folders : List FolderRow) (ps : List ProductRow)
    (hu : (folders.map (fun f => f.external_id)).Nodup) :
    (resolve_product_folder folders ps).length = ps.length ∧
    (∀ (i : ℕ) (hi : i < ps.length)
       (hi2 : i < (resolve_product_folder folders ps).length),
      (ps.get ⟨i, hi⟩).folder_id = Option.none →
      (∀ f, f ∈ folders →
        (ps.get ⟨i, hi⟩).folder_external_id = some f.external_id →
        ((resolve_product_folder folders ps).get ⟨i, hi2⟩).folder_id =
          some f.id) ∧
      ((∀ f, f ∈ folders →
          (ps.get ⟨i, hi⟩).folder_external_id ≠ some f.external_id) →
        ((resolve_product_folder folders ps).get ⟨i, hi2⟩).folder_id =
          Option.none)) ∧
    (∀ (i : ℕ) (hi : i < ps.length)
       (hi2 : i < (resolve_product_folder folders ps).length),
      (ps.get ⟨i, hi⟩).folder_id.isSome = true →
      (resolve_product_folder folders ps).get ⟨i, hi2⟩ = ps.get ⟨i, hi⟩) ∧
    resolve_product_folder folders (resolve_product_folder folders ps) =
      resolve_product_folder folders ps := by
  have hget : ∀ (i : ℕ) (hi : i < ps.length)
      (hi2 : i < (resolve_product_folder folders ps).length),
      (resolve_product_folder folders ps).get ⟨i, hi2⟩ =
        resolve_product_folder_row folders (ps.get ⟨i, hi⟩) := by
    intro i hi hi2
    simp [resolve_product_folder]
  refine ⟨by simp [resolve_product_folder], ?_, ?_, ?_⟩
  · intro i hi hi2 hnull
    constructor
    · intro f hf hpend
      rw [hget i hi hi2, resolve_row_matched hu hnull hpend hf]
    · intro hnomatch
      rw [hget i hi hi2, resolve_row_unmatched hnull hnomatch]
      exact hnull
  · intro i hi hi2 hsome
    rw [hget i hi hi2, resolve_row_skips_resolved hsome]
  · unfold resolve_product_folder
    rw [List.map_map]
    congr 1
    funext p
    exact resolve_row_idem folders p

/-- Witness for C2: one folder `F1` with surrogate id 10 and one product
pending on `F1` with a null resolved column; the resolver run sets the
product's `folder_id` to 10. -/
theorem c2_resolver_convergence_and_idempotence_witness :
    ((resolve_product_folder [c2folder] [c2product]).get
      ⟨0, by simp [resolve_product_folder]⟩).folder_id = some 10 :=
  ((c2_resolver_convergence_and_idempotence [c2folder] [c2product]
      (by simp)).2.1 0 (by simp) (by simp [resolve_product_folder])
    rfl).1 c2folder (by simp) rfl

/-! ### Incremental sync failure semantics (C4) -/

/-- **C4 counterexample** — In `FixedMoySkladSyncService`, an
entity-level failure is *not* absorbed: if the products fetch raises,
`sync_products` re-raises after rollback and `incremental_sync`'s own
`except … raise` propagates the exception to the caller instead of
returning a summary with the entity's error count. -/
theorem c4_counterexample_entity_failure_propagates :
    incremental_sync SyncState.empty (.error (.integrationError 500))
      (.ok []) (.ok []) (.ok []) 0 = .error (.integrationError 500) := rfl

/-- **C4 (amended)** — Incremental sync is fail-soft only in the legacy
`MoySkladSyncService`: there every entity-level failure is absorbed into
that entity's `{errors: 1}` tally and `incremental_sync` always returns
a completed summary.  In `FixedMoySkladSyncService` an entity-level
failure propagates out of `incremental_sync` unchanged, so the caller
receives the exception and no summary. -/
theorem c4_incremental_fail_soft_legacy_only :
    (∀ (st : SyncState) (e : PyError)
       (sf cf kf : Except PyError (List JVal)) (now : ℕ),
      incremental_sync st (.error e) sf cf kf now = .error e) ∧
    (∀ (st : OldState) (e : PyError) (ef : Except PyError JVal) (now : ℕ),
      (incremental_sync_old st (.error e) ef now).2.status = "completed" ∧
      (incremental_sync_old st (.error e) ef now).2.organizations =
        ⟨0, 0, 1⟩) ∧
    (∀ (st : OldState) (e e' : PyError) (now : ℕ),
      (incremental_sync_old st (.error e) (.error e') now).2.employees =
        ⟨0, 0, 1⟩) := by
  refine ⟨?_, ?_, ?_⟩
  · intro st e sf cf kf now
    rfl
  · intro st e ef now
    exact ⟨rfl, rfl⟩
  · intro st e e' now
    rfl

/-! ### Counting behaviour of the entity loops (towards C3) -/

theorem runEntity_foldl_updated {τ : Type}
    (step : τ → JVal → τ × Outcome)
    (hstep : ∀ t d, (step t d).2 ≠ .updated) :
    ∀ (rows : List JVal) (t : τ) (c : EntityCounts),
      (rows.foldl (fun acc d =>
        ((step acc.1 d).1, acc.2.add (step acc.1 d).2)) (t, c)).2.updated =
        c.updated := by
  intro rows
  induction rows with
  | nil => intro t c; rfl
  | cons d rest ih =>
    intro t c
    rw [List.foldl_cons]
    rw [ih]
    cases ho : (step t d).2 with
    | skipped => rfl
    | created => rfl
    | updated => exact absurd ho (hstep t d)
    | errored => rfl

theorem runEntity_updated_eq_zero {τ : Type}
    (step : τ → JVal → τ × Outcome)
    (hstep : ∀ t d, (step t d).2 ≠ .updated) (t : τ) (rows : List JVal) :
    (runEntity step t rows).2.updated = 0 := by
  unfold runEntity
  exact runEntity_foldl_updated step hstep rows t ⟨0, 0, 0⟩

theorem runEntity_counts_indep {τ : Type}
    (step step' : τ → JVal → τ × Outcome)
    (h : ∀ t t' d, (step t d).2 = (step' t' d).2) :
    ∀ (rows : List JVal) (t t' : τ) (c : EntityCounts),
      (rows.foldl (fun acc d =>
        ((step acc.1 d).1, acc.2.add (step acc.1 d).2)) (t, c)).2 =
      (rows.foldl (fun acc d =>
        ((step' acc.1 d).1, acc.2.add (step' acc.1 d).2)) (t', c)).2 := by
  intro rows
  induction rows with
  | nil => intro t t' c; rfl
  | cons d rest ih =>
    intro t t' c
    rw [List.foldl_cons, List.foldl_cons]
    rw [h t t' d]
    exact ih (step t d).1 (step' t' d).1 _

/-- Each upsert statement reports `rowcount = 1` on both arms. -/
theorem upsert_product_rowcount (t : ProductTable) (v : ProductValues)
    (n : ℕ) : (upsert_product t v n).2 = 1 := by
  unfold upsert_product
  by_cases h : t.rows.any (fun r => r.external_id == v.external_id) <;>
    simp [h]

theorem upsert_folder_rowcount (t : FolderTable) (v : FolderValues)
    (n : ℕ) : (upsert_folder t v n).2 = 1 := by
  unfold upsert_folder
  by_cases h : t.rows.any (fun r => r.external_id == v.external_id) <;>
    simp [h]

theorem upsert_unit_rowcount (t : UnitTable) (v : UnitValues)
    (n : ℕ) : (upsert_unit t v n).2 = 1 := by
  unfold upsert_unit
  by_cases h : t.rows.any (fun r => r.external_id == v.external_id) <;>
    simp [h]

theorem upsert_store_rowcount (t : StoreTable) (v : StoreValues)
    (n : ℕ) : (upsert_store t v n).2 = 1 := by
  unfold upsert_store
  by_cases h : t.rows.any (fun r => r.external_id == v.external_id) <;>
    simp [h]

theorem upsert_service_rowcount (t : ServiceTable) (v : ServiceValues)
    (n : ℕ) : (upsert_service t v n).2 = 1 := by
  unfold upsert_service
  by_cases h : t.rows.any (fun r => r.external_id == v.external_id) <;>
    simp [h]

theorem upsert_counterparty_rowcount (t : CounterpartyTable)
    (v : CounterpartyValues) (n : ℕ) :
    (upsert_counterparty t v n).2 = 1 := by
  unfold upsert_counterparty
  by_cases h : t.rows.any (fun r => r.external_id == v.external_id) <;>
    simp [h]

theorem upsert_stock_rowcount (t : StockTable) (v : StockValues)
    (n : ℕ) : (upsert_stock t v n).2 = 1 := by
  unfold upsert_stock
  by_cases h : t.rows.any (fun r => r.external_id == v.external_id) <;>
    simp [h]

/-- A record's outcome in `sync_products`' loop does not depend on the
table or the clock: skipped/errored is decided by the extraction alone,
and a processed record is always counted as `created` because the
upsert's `rowcount` is `1` on both arms. -/
theorem sync_product_record_outcome (n n' : ℕ) (t t' : ProductTable)
    (d : JVal) :
    (sync_product_record n t d).2 = (sync_product_record n' t' d).2 := by
  unfold sync_product_record
  cases h : extract_product_values d with
  | error e => rfl
  | ok o =>
    cases o with
    | none => rfl
    | some v => simp [upsert_product_rowcount]

theorem sync_product_record_not_updated (n : ℕ) (t : ProductTable)
    (d : JVal) : (sync_product_record n t d).2 ≠ .updated := by
  unfold sync_product_record
  cases h : extract_product_values d with
  | error e => simp
  | ok o =>
    cases o with
    | none => simp
    | some v => simp [upsert_product_rowcount]

theorem sync_folder_record_outcome (n n' : ℕ) (t t' : FolderTable)
    (d : JVal) :
    (sync_folder_record n t d).2 = (sync_folder_record n' t' d).2 := by
  unfold sync_folder_record
  cases h : extract_folder_values d with
  | error e => rfl
  | ok o =>
    cases o with
    | none => rfl
    | some v => simp [upsert_folder_rowcount]

theorem sync_folder_record_not_updated (n : ℕ) (t : FolderTable)
    (d : JVal) : (sync_folder_record n t d).2 ≠ .updated := by
  unfold sync_folder_record
  cases h : extract_folder_values d with
  | error e => simp
  | ok o =>
    cases o with
    | none => simp
    | some v => simp [upsert_folder_rowcount]

theorem sync_unit_record_outcome (n n' : ℕ) (t t' : UnitTable)
    (d : JVal) :
    (sync_unit_record n t d).2 = (sync_unit_record n' t' d).2 := by
  unfold sync_unit_record
  cases h : extract_unit_values d with
  | error e => rfl
  | ok o =>
    cases o with
    | none => rfl
    | some v => simp [upsert_unit_rowcount]

theorem sync_unit_record_not_updated (n : ℕ) (t : UnitTable)
    (d : JVal) : (sync_unit_record n t d).2 ≠ .updated := by
  unfold sync_unit_record
  cases h : extract_unit_values d with
  | error e => simp
  | ok o =>
    cases o with
    | none => simp
    | some v => simp [upsert_unit_rowcount]

theorem sync_store_record_outcome (n n' : ℕ) (t t' : StoreTable)
    (d : JVal) :
    (sync_store_record n t d).2 = (sync_store_record n' t' d).2 := by
  unfold sync_store_record
  cases h : extract_store_values d with
  | error e => rfl
  | ok o =>
    cases o with
    | none => rfl
    | some v => simp [upsert_store_rowcount]

theorem sync_store_record_not_updated (n : ℕ) (t : StoreTable)
    (d : JVal) : (sync_store_record n t d).2 ≠ .updated := by
  unfold sync_store_record
  cases h : extract_store_values d with
  | error e => simp
  | ok o =>
    cases o with
    | none => simp
    | some v => simp [upsert_store_rowcount]

theorem sync_service_record_outcome (n n' : ℕ) (t t' : ServiceTable)
    (d : JVal) :
    (sync_service_record n t d).2 = (sync_service_record n' t' d).2 := by
  unfold sync_service_record
  cases h : extract_service_values d with
  | error e => rfl
  | ok o =>
    cases o with
    | none => rfl
    | some v => simp [upsert_service_rowcount]

theorem sync_service_record_not_updated (n : ℕ) (t : ServiceTable)
    (d : JVal) : (sync_service_record n t d).2 ≠ .updated := by
  unfold sync_service_record
  cases h : extract_service_values d with
  | error e => simp
  | ok o =>
    cases o with
    | none => simp
    | some v => simp [upsert_service_rowcount]

theorem sync_counterparty_record_outcome (n n' : ℕ)
    (t t' : CounterpartyTable) (d : JVal) :
    (sync_counterparty_record n t d).2 =
      (sync_counterparty_record n' t' d).2 := by
  unfold sync_counterparty_record
  cases h : extract_counterparty_values d with
  | error e => rfl
  | ok o =>
    cases o with
    | none => rfl
    | some v => simp [upsert_counterparty_rowcount]

theorem sync_counterparty_record_not_updated (n : ℕ)
    (t : CounterpartyTable) (d : JVal) :
    (sync_counterparty_record n t d).2 ≠ .updated := by
  unfold sync_counterparty_record
  cases h : extract_counterparty_values d with
  | error e => simp
  | ok o =>
    cases o with
    | none => simp
    | some v => simp [upsert_counterparty_rowcount]

theorem sync_stock_record_outcome (n n' : ℕ) (t t' : StockTable)
    (d : JVal) :
    (sync_stock_record n t d).2 = (sync_stock_record n' t' d).2 := by
  unfold sync_stock_record
  cases h : extract_stock_values d with
  | error e => rfl
  | ok o =>
    cases o with
    | none => rfl
    | some v => simp [upsert_stock_rowcount]

theorem sync_stock_record_not_updated (n : ℕ) (t : StockTable)
    (d : JVal) : (sync_stock_record n t d).2 ≠ .updated := by
  unfold sync_stock_record
  cases h : extract_stock_values d with
  | error e => simp
  | ok o =>
    cases o with
    | none => simp
    | some v => simp [upsert_stock_rowcount]

/-! ### Preservation of the product table across a re-run (towards C3) -/

theorem sync_product_record_table_of_err {d : JVal} {e : PyError}
    (h : extract_product_values d = .error e) (n : ℕ) (t : ProductTable) :
    (sync_product_record n t d).1 = t := by
  unfold sync_product_record
  rw [h]

theorem sync_product_record_table_of_skip {d : JVal}
    (h : extract_product_values d = .ok Option.none) (n : ℕ)
    (t : ProductTable) : (sync_product_record n t d).1 = t := by
  unfold sync_product_record
  rw [h]

theorem sync_product_record_table_of_some {d : JVal} {v : ProductValues}
    (h : extract_product_values d = .ok (some v)) (n : ℕ)
    (t : ProductTable) :
    (sync_product_record n t d).1 = (upsert_product t v n).1 := by
  unfold sync_product_record
  rw [h]
  by_cases h2 : (upsert_product t v n).2 > 0 <;> simp [h2]

theorem sync_product_record_mem_mono (n : ℕ) (t : ProductTable) (d : JVal)
    (x : String) (hx : x ∈ t.rows.map (fun r => r.external_id)) :
    x ∈ (sync_product_record n t d).1.rows.map (fun r => r.external_id) := by
  cases h : extract_product_values d with
  | error e => rw [sync_product_record_table_of_err h]; exact hx
  | ok o =>
    cases o with
    | none => rw [sync_product_record_table_of_skip h]; exact hx
    | some v =>
      rw [sync_product_record_table_of_some h, upsert_product_ext_map]
      by_cases hm : t.rows.any (fun r => r.external_id == v.external_id)
      · simpa [hm] using hx
      · simp only [hm, Bool.false_eq_true, if_false]
        exact List.mem_append_left _ hx

theorem prodKey_none_table {d : JVal} (h : prodKey d = Option.none)
    (n : ℕ) (t : ProductTable) : (sync_product_record n t d).1 = t := by
  unfold prodKey at h
  cases he : extract_product_values d with
  | error e => exact sync_product_record_table_of_err he n t
  | ok o =>
    cases o with
    | none => exact sync_product_record_table_of_skip he n t
    | some v => rw [he] at h; simp at h

theorem prodKey_some_extract {d : JVal} {k : String}
    (h : prodKey d = some k) :
    ∃ v, extract_product_values d = .ok (some v) ∧ v.external_id = k := by
  unfold prodKey at h
  cases he : extract_product_values d with
  | error e => rw [he] at h; simp at h
  | ok o =>
    cases o with
    | none => rw [he] at h; simp at h
    | some v =>
      rw [he] at h
      simp only [Option.some.injEq] at h
      exact ⟨v, rfl, h⟩

theorem sync_product_record_key_mem {d : JVal} {k : String}
    (h : prodKey d = some k) (n : ℕ) (t : ProductTable) :
    k ∈ (sync_product_record n t d).1.rows.map (fun r => r.external_id) := by
  obtain ⟨v, hv, hk⟩ := prodKey_some_extract h
  rw [sync_product_record_table_of_some hv]
  exact hk ▸ upsert_product_mem t v n

theorem sync_product_record_key_present {d : JVal} {k : String}
    (h : prodKey d = some k) (n : ℕ) (t : ProductTable)
    (hmem : k ∈ t.rows.map (fun r => r.external_id)) :
    (sync_product_record n t d).1.rows.map (fun r => r.external_id) =
      t.rows.map (fun r => r.external_id) := by
  obtain ⟨v, hv, hk⟩ := prodKey_some_extract h
  rw [sync_product_record_table_of_some hv, upsert_product_ext_map]
  have hany : t.rows.any (fun r => r.external_id == v.external_id) =
      true := by
    rw [List.any_eq_true]
    rw [← hk] at hmem
    rw [List.mem_map] at hmem
    obtain ⟨r, hr, he⟩ := hmem
    exact ⟨r, hr, by simp [he]⟩
  rw [hany]
  simp

/-- The table component of the entity loop is the plain fold of the
per-record table effect. -/
theorem runEntity_fst {τ : Type} (step : τ → JVal → τ × Outcome) :
    ∀ (rows : List JVal) (t : τ) (c : EntityCounts),
      (rows.foldl (fun acc d =>
        ((step acc.1 d).1, acc.2.add (step acc.1 d).2)) (t, c)).1 =
      rows.foldl (fun t d => (step t d).1) t := by
  intro rows
  induction rows with
  | nil => intro t c; rfl
  | cons d rest ih =>
    intro t c
    rw [List.foldl_cons, List.foldl_cons]
    exact ih (step t d).1 _

theorem prod_run_mono (n : ℕ) :
    ∀ (rows : List JVal) (t : ProductTable) (x : String),
      x ∈ t.rows.map (fun r => r.external_id) →
      x ∈ (rows.foldl (fun t d => (sync_product_record n t d).1)
        t).rows.map (fun r => r.external_id) := by
  intro rows
  induction rows with
  | nil => intro t x hx; exact hx
  | cons d rest ih =>
    intro t x hx
    rw [List.foldl_cons]
    exact ih _ x (sync_product_record_mem_mono n t d x hx)

theorem prod_run_keys (n : ℕ) :
    ∀ (rows : List JVal) (t : ProductTable) (d : JVal) (k : String),
      d ∈ rows → prodKey d = some k →
      k ∈ (rows.foldl (fun t d => (sync_product_record n t d).1)
        t).rows.map (fun r => r.external_id) := by
  intro rows
  induction rows with
  | nil => intro t d k hd; cases hd
  | cons d' rest ih =>
    intro t d k hd hk
    rw [List.foldl_cons]
    rcases List.mem_cons.mp hd with rfl | hmem
    · exact prod_run_mono n rest _ k (sync_product_record_key_mem hk n t)
    · exact ih _ d k hmem hk

theorem prod_run_stable (n : ℕ) :
    ∀ (rows : List JVal) (t : ProductTable),
      (∀ d ∈ rows, ∀ k, prodKey d = some k →
        k ∈ t.rows.map (fun r => r.external_id)) →
      (rows.foldl (fun t d => (sync_product_record n t d).1)
        t).rows.map (fun r => r.external_id) =
        t.rows.map (fun r => r.external_id) := by
  intro rows
  induction rows with
  | nil => intro t _; rfl
  | cons d rest ih =>
    intro t hkeys
    rw [List.foldl_cons]
    cases hk : prodKey d with
    | none =>
      rw [prodKey_none_table hk]
      exact ih t (fun d' hd' => hkeys d' (List.mem_cons_of_mem d hd'))
    | some k =>
      have hpres := sync_product_record_key_present hk n t
        (hkeys d (List.mem_cons_self d rest) k hk)
      rw [ih _ (fun d' hd' k' hk' => by
        rw [hpres]
        exact hkeys d' (List.mem_cons_of_mem d hd') k' hk'), hpres]

/-! The resolver statements preserve the product table's shape. -/

theorem resolve_product_folder_row_external_id (folders : List FolderRow)
    (p : ProductRow) :
    (resolve_product_folder_row folders p).external_id = p.external_id := by
  unfold resolve_product_folder_row
  by_cases h : p.folder_id.isSome
  · rw [if_pos h]
  · rw [if_neg h]
    cases hb : p.folder_external_id.bind
        (fun ext => folders.find? (fun f => f.external_id == ext)) with
    | none => simp [hb]
    | some f => simp [hb]

theorem resolve_product_unit_row_external_id (units : List UnitRow)
    (p : ProductRow) :
    (resolve_product_unit_row units p).external_id = p.external_id := by
  unfold resolve_product_unit_row
  by_cases h : p.unit_id.isSome
  · rw [if_pos h]
  · rw [if_neg h]
    cases hb : p.unit_external_id.bind
        (fun ext => units.find? (fun u => u.external_id == ext)) with
    | none => simp [hb]
    | some u => simp [hb]

theorem resolve_product_folder_ext_map (folders : List FolderRow)
    (ps : List ProductRow) :
    (resolve_product_folder folders ps).map (fun p => p.external_id) =
      ps.map (fun p => p.external_id) := by
  unfold resolve_product_folder
  rw [List.map_map]
  congr 1
  funext p
  simp [Function.comp, resolve_product_folder_row_external_id]

theorem resolve_product_unit_ext_map (units : List UnitRow)
    (ps : List ProductRow) :
    (resolve_product_unit units ps).map (fun p => p.external_id) =
      ps.map (fun p => p.external_id) := by
  unfold resolve_product_unit
  rw [List.map_map]
  congr 1
  funext p
  simp [Function.comp, resolve_product_unit_row_external_id]

/-! ### Re-sync stability (C3) -/

/-- With a passing connection test and seven successful fetches,
`full_sync` computes `full_sync_ok_result` (pure unfolding of the happy
path). -/
theorem full_sync_ok_run (st : SyncState) (u f so p sv c k : List JVal)
    (now : ℕ) :
    full_sync st true ⟨.ok u, .ok f, .ok so, .ok p, .ok sv, .ok c, .ok k⟩
      now = .ok (full_sync_ok_result st u f so p sv c k now) := rfl

theorem runEntity_counts_eq {τ : Type}
    (step step' : τ → JVal → τ × Outcome)
    (h : ∀ t t' d, (step t d).2 = (step' t' d).2)
    (rows : List JVal) (t t' : τ) :
    (runEntity step t rows).2 = (runEntity step' t' rows).2 := by
  unfold runEntity
  exact runEntity_counts_indep step step' h rows t t' ⟨0, 0, 0⟩

theorem except_method_bind_ok {ε α β : Type} (a : α)
    (g : α → Except ε β) : (Except.ok a).bind g = g a := rfl

theorem runEntity_table {τ : Type} (step : τ → JVal → τ × Outcome)
    (t : τ) (rows : List JVal) :
    (runEntity step t rows).1 =
      rows.foldl (fun t d => (step t d).1) t := by
  unfold runEntity
  exact runEntity_fst step rows t ⟨0, 0, 0⟩

theorem upd_fkr_products_rows (s : SyncState) :
    (update_foreign_key_relationships s).products.rows =
      resolve_product_unit s.units.rows
        (resolve_product_folder s.folders.rows s.products.rows) := rfl

theorem full_sync_ok_result_products_ext (s : SyncState)
    (u f so p sv c k : List JVal) (now : ℕ) :
    (full_sync_ok_result s u f so p sv c k now).1.products.rows.map
        (fun r => r.external_id) =
      (runEntity (sync_product_record now) s.products p).1.rows.map
        (fun r => r.external_id) := by
  show (update_foreign_key_relationships _).products.rows.map
      (fun r => r.external_id) = _
  rw [upd_fkr_products_rows, resolve_product_unit_ext_map,
    resolve_product_folder_ext_map]

theorem run2_products_ext (s : SyncState) (u f so p sv c k : List JVal)
    (now₁ now₂ : ℕ) :
    (full_sync_ok_result (full_sync_ok_result s u f so p sv c k now₁).1
        u f so p sv c k now₂).1.products.rows.map
      (fun r => r.external_id) =
    (full_sync_ok_result s u f so p sv c k now₁).1.products.rows.map
      (fun r => r.external_id) := by
  have hkeys : ∀ d ∈ p, ∀ key, prodKey d = some key →
      key ∈ (full_sync_ok_result s u f so p sv c k
        now₁).1.products.rows.map (fun r => r.external_id) := by
    intro d hd key hk
    rw [full_sync_ok_result_products_ext, runEntity_table]
    exact prod_run_keys now₁ p s.products d key hd hk
  rw [full_sync_ok_result_products_ext, runEntity_table]
  exact prod_run_stable now₂ p
    (full_sync_ok_result s u f so p sv c k now₁).1.products hkeys

/-- **C3 counterexample** — Running `full_sync` twice from an empty
store over an unchanged one-product remote dataset: the second run's
summary reports `total_created = 1` and `total_updated = 0`, not
`total_created = 0` and `total_updated = 1` as claimed — the service
counts `created` whenever `rowcount > 0`, and PostgreSQL's
`INSERT … ON CONFLICT DO UPDATE` reports `rowcount = 1` on the update
arm too.  No row is duplicated (the product table still has exactly one
row). -/
theorem c3_counterexample_second_run_reports_created :
    (full_sync SyncState.empty true c3data 0).map (fun r =>
      (full_sync r.1 true c3data 1).map (fun r2 =>
        (r2.2.total_created, r2.2.total_updated,
          r2.1.products.rows.length))) = .ok (.ok (1, 0, 1)) := rfl

/-- **C3 (amended)** — Re-running `full_sync` against an unchanged
remote dataset duplicates nothing, but the summary counts do not flip to
"updated": (i) `total_updated` is `0` on *every* successful run, because
the `rowcount > 0` test classifies both upsert arms as `created`;
(ii) the summary of a successful run depends only on the fetched
dataset — in particular the second run's summary equals the first's
(with `total_created` equal to the number of processed records, not 0);
(iii) the second run leaves the product table's external ids and row
count unchanged (every record is revisited via the conflict-update arm,
none duplicated). -/
theorem c3_resync_stability_amended :
    (∀ (st : SyncState) (now : ℕ) (u f so p sv c k : List JVal),
      (full_sync st true ⟨.ok u, .ok f, .ok so, .ok p, .ok sv, .ok c,
        .ok k⟩ now).map (fun r => r.2.total_updated) = .ok 0) ∧
    (∀ (st₁ st₂ : SyncState) (now₁ now₂ : ℕ)
       (u f so p sv c k : List JVal),
      (full_sync st₁ true ⟨.ok u, .ok f, .ok so, .ok p, .ok sv, .ok c,
        .ok k⟩ now₁).map (fun r => r.2) =
      (full_sync st₂ true ⟨.ok u, .ok f, .ok so, .ok p, .ok sv, .ok c,
        .ok k⟩ now₂).map (fun r => r.2)) ∧
    (∀ (st : SyncState) (now₁ now₂ : ℕ) (u f so p sv c k : List JVal),
      ((full_sync st true ⟨.ok u, .ok f, .ok so, .ok p, .ok sv, .ok c,
          .ok k⟩ now₁).bind (fun r₁ =>
        (full_sync r₁.1 true ⟨.ok u, .ok f, .ok so, .ok p, .ok sv,
          .ok c, .ok k⟩ now₂).map (fun r₂ =>
          r₂.1.products.rows.map (fun row => row.external_id)))) =
      ((full_sync st true ⟨.ok u, .ok f, .ok so, .ok p, .ok sv, .ok c,
          .ok k⟩ now₁).map (fun r₁ =>
        r₁.1.products.rows.map (fun row => row.external_id)))) ∧
    (∀ (st : SyncState) (now₁ now₂ : ℕ) (u f so p sv c k : List JVal),
      ((full_sync st true ⟨.ok u, .ok f, .ok so, .ok p, .ok sv, .ok c,
          .ok k⟩ now₁).bind (fun r₁ =>
        (full_sync r₁.1 true ⟨.ok u, .ok f, .ok so, .ok p, .ok sv,
          .ok c, .ok k⟩ now₂).map (fun r₂ =>
          r₂.1.products.rows.length))) =
      ((full_sync st true ⟨.ok u, .ok f, .ok so, .ok p, .ok sv, .ok c,
          .ok k⟩ now₁).map (fun r₁ => r₁.1.products.rows.length))) := by
  refine ⟨?_, ?_, ?_, ?_⟩
  · intro st now u f so p sv c k
    rw [full_sync_ok_run]
    have h1 := runEntity_updated_eq_zero (sync_folder_record now)
      (fun t d => sync_folder_record_not_updated now t d) st.folders f
    have h2 := runEntity_updated_eq_zero (sync_unit_record now)
      (fun t d => sync_unit_record_not_updated now t d) st.units u
    have h3 := runEntity_updated_eq_zero (sync_product_record now)
      (fun t d => sync_product_record_not_updated now t d) st.products p
    have h4 := runEntity_updated_eq_zero (sync_service_record now)
      (fun t d => sync_service_record_not_updated now t d) st.services sv
    have h5 := runEntity_updated_eq_zero (sync_counterparty_record now)
      (fun t d => sync_counterparty_record_not_updated now t d)
      st.counterparties c
    have h6 := runEntity_updated_eq_zero (sync_store_record now)
      (fun t d => sync_store_record_not_updated now t d) st.stores so
    have h7 := runEntity_updated_eq_zero (sync_stock_record now)
      (fun t d => sync_stock_record_not_updated now t d) st.stock k
    simp [Except.map, full_sync_ok_result, h1, h2, h3, h4, h5, h6, h7]
  · intro st₁ st₂ now₁ now₂ u f so p sv c k
    rw [full_sync_ok_run, full_sync_ok_run]
    have h1 := runEntity_counts_eq (sync_folder_record now₁)
      (sync_folder_record now₂)
      (fun t t' d => sync_folder_record_outcome now₁ now₂ t t' d) f
      st₁.folders st₂.folders
    have h2 := runEntity_counts_eq (sync_unit_record now₁)
      (sync_unit_record now₂)
      (fun t t' d => sync_unit_record_outcome now₁ now₂ t t' d) u
      st₁.units st₂.units
    have h3 := runEntity_counts_eq (sync_product_record now₁)
      (sync_product_record now₂)
      (fun t t' d => sync_product_record_outcome now₁ now₂ t t' d) p
      st₁.products st₂.products
    have h4 := runEntity_counts_eq (sync_service_record now₁)
      (sync_service_record now₂)
      (fun t t' d => sync_service_record_outcome now₁ now₂ t t' d) sv
      st₁.services st₂.services
    have h5 := runEntity_counts_eq (sync_counterparty_record now₁)
      (sync_counterparty_record now₂)
      (fun t t' d => sync_counterparty_record_outcome now₁ now₂ t t' d) c
      st₁.counterparties st₂.counterparties
    have h6 := runEntity_counts_eq (sync_store_record now₁)
      (sync_store_record now₂)
      (fun t t' d => sync_store_record_outcome now₁ now₂ t t' d) so
      st₁.stores st₂.stores
    have h7 := runEntity_counts_eq (sync_stock_record now₁)
      (sync_stock_record now₂)
      (fun t t' d => sync_stock_record_outcome now₁ now₂ t t' d) k
      st₁.stock st₂.stock
    simp [Except.map, full_sync_ok_result, h1, h2, h3, h4, h5, h6, h7]
  · intro st now₁ now₂ u f so p sv c k
    rw [full_sync_ok_run, except_method_bind_ok, full_sync_ok_run]
    exact congrArg Except.ok
      (run2_products_ext st u f so p sv c k now₁ now₂)
  · intro st now₁ now₂ u f so p sv c k
    rw [full_sync_ok_run, except_method_bind_ok, full_sync_ok_run]
    have h := run2_products_ext st u f so p sv c k now₁ now₂
    have h2 := congrArg List.length h
    rw [List.length_map, List.length_map] at h2
    exact congrArg Except.ok h2

end Turan
